import Mathlib

/-!
Shallow embedding of `examples/c/builtin_echo.c` from the Teaclave client SDK
examples.

The file under verification is a single C `main` that drives a fixed sequence
of calls against the Teaclave client SDK (`login`, `user_register`,
`teaclave_connect_frontend_service`, `teaclave_frontend_set_credential`,
`teaclave_register_function_serialized`, `teaclave_create_task_serialized`,
`teaclave_invoke_task`, `teaclave_get_task_result`,
`teaclave_close_frontend_service`).  The SDK and the platform behind it are
external collaborators: we model their outcomes as an environment `Env`
supplying each call's return value and output, and `main` as a pure function
from `Env` to the trace of calls and diagnostics it performs together with the
process exit status.  The local control flow (the `goto bail` cleanup, the
`sscanf`-based identifier extraction, the buffer-length threading) is
translated faithfully from the C source.
-/

namespace BuiltinEcho

/-- `BUFFER_SIZE` from the source (`#define BUFFER_SIZE 4086`). -/
def BUFFER_SIZE : Nat := 4086

/-- The constant user and admin identities from `main`. -/
def user_id : String := "test_id"

/-- `user_password` from `main`. -/
def user_password : String := "test_password"

/-- `admin_user_id` from `main`. -/
def admin_user_id : String := "admin"

/-- `admin_user_password` from `main`. -/
def admin_user_password : String := "teaclave"

/-- C `isspace` in the default locale, the delimiter set of `sscanf`'s `%s`
conversion: space, tab, newline, vertical tab, form feed, carriage return. -/
def isSpaceChar (c : Char) : Bool :=
  c = ' ' || c = '\t' || c = '\n' || c = '\x0b' || c = '\x0c' || c = '\r'

/-- The characters a `%<width>s` conversion reads after the literal `tag`
matched: skip leading whitespace, then take non-whitespace characters, at
most `width` of them. -/
def scanField (tag : List Char) (width : Nat) (resp : List Char) : List Char :=
  (((resp.drop tag.length).dropWhile (fun c => isSpaceChar c)).takeWhile
    (fun c => !isSpaceChar c)).take width

/-- Semantics of `sscanf(resp, "<tag>%<width>s", buf)` as used twice in
`main`: every character of the literal `tag` must match `resp` exactly from
the start; then `%s` skips leading whitespace and stores up to `width`
non-whitespace characters (plus a terminating NUL in C).  When the literal
fails to match, or no non-whitespace character is found, the conversion fails
and `buf` keeps its previous contents. -/
def scanStringField (tag : String) (width : Nat) (resp : String) (buf : String) :
    String :=
  if tag.data.isPrefixOf resp.data then
    if (scanField tag.data width resp.data).isEmpty then buf
    else String.mk (scanField tag.data width resp.data)
  else buf

/-- The literal prefix of the `function_id` scan:
`sscanf(serialized_response, "{\"function_id\":\"%45s", function_id)`. -/
def functionIdTag : String := "\x7b\"function_id\":\""

/-- The literal prefix of the `task_id` scan:
`sscanf(serialized_response, "{\"task_id\":\"%41s", task_id)`. -/
def taskIdTag : String := "\x7b\"task_id\":\""

/-- `register_function_request_serialized`: the stringified `QUOTE(...)`
literal of the source, a serialized `register_function` request. -/
def register_function_request_serialized : String :=
  "\x7b \"request\" : \"register_function\", \"name\" : \"builtin-echo\", " ++
  "\"description\" : \"Native Echo Function\", \"executor_type\" : \"builtin\", " ++
  "\"public\" : true, \"payload\" : [], " ++
  "\"arguments\" : [\x7b\"key\": \"message\", \"default_value\": \"\", " ++
  "\"allow_overwrite\": true\x7d], " ++
  "\"inputs\" : [], \"outputs\" : [], \"user_allowlist\": [], \"usage_quota\": -1 \x7d"

/-- `create_task_request_serialized` with the `%s` hole filled by
`function_id`, i.e. the result of
`snprintf(serialized_request, BUFFER_SIZE, create_task_request_serialized,
function_id)` before truncation.  The `function_arguments` value is itself a
serialized string, so the source's literal contains escaped quotes. -/
def create_task_request_with (function_id : String) : String :=
  "\x7b \"request\" : \"create_task\", \"function_id\" : \"" ++ function_id ++
  "\", \"function_arguments\" : \"\x7b\\\"message\\\": \\\"Hello, Teaclave!\\\"\x7d\", " ++
  "\"executor\" : \"builtin\", \"inputs_ownership\" : [], \"outputs_ownership\" : [] \x7d"

/-- `create_task_request_serialized`: the format string itself, with the
unsubstituted `%s` hole. -/
def create_task_request_serialized : String := create_task_request_with "%s"

/-- The state of the `frontend_client` pointer at a call of
`teaclave_close_frontend_service`: `uninit` when `goto bail` jumped over its
initializer (the pointer is indeterminate), `null` when
`teaclave_connect_frontend_service` returned `NULL`, `valid` when the connect
succeeded. -/
inductive HandleState
  | uninit
  | null
  | valid
deriving DecidableEq, Repr

/-- The distinct `printf`/`fprintf` messages of `main`. -/
inductive Msg
  | registering
  | loginBanner
  | connectBanner
  | credentialBanner
  | functionIdShown (function_id : String)
  | taskIdShown (task_id : String)
  | taskResultShown (task_result : String)
  | failedLogin
  | failedRegister
  | failedConnect
  | failedSetCredential
  | failedRegisterFunction
  | failedCreateTask
  | failedInvokeTask
  | failedGetTaskResult
  | failedClose
deriving DecidableEq, Repr

/-- The exact text each `Msg` stands for in the C source. -/
def Msg.text : Msg → String
  | .registering => "[+] Registering\n"
  | .loginBanner => "[+] Login\n"
  | .connectBanner => "connect frontend service\n"
  | .credentialBanner => "set crendential\n"
  | .functionIdShown s => "[+] function_id: " ++ s ++ "\n"
  | .taskIdShown s => "[+] task_id: " ++ s ++ "\n"
  | .taskResultShown s => "[+] Task result in string: " ++ s ++ "\n"
  | .failedLogin => "[-] Failed to login.\n"
  | .failedRegister => "[-] Failed to register. Ignore.\n"
  | .failedConnect => "[-] Failed to connect to the frontend service.\n"
  | .failedSetCredential => "[-] Failed to set credential.\n"
  | .failedRegisterFunction => "[-] Failed to register the function.\n"
  | .failedCreateTask => "[-] Failed to create a task.\n"
  | .failedInvokeTask => "[-] Failed to invoke the task.\n"
  | .failedGetTaskResult => "[-] Failed to get the task result.\n"
  | .failedClose => "[-] Failed to close the frontend service client.\n"

/-- One observable step of `main`: a call into the SDK (with the arguments
the source passes and the return value the environment supplies), the
`memset` of the response buffer, or a line on stdout / stderr. -/
inductive Event
  | login (userId : String) (capacityIn : Nat) (ret : Int)
  | user_register (adminId userId : String) (ret : Int)
  | teaclave_connect_frontend_service (ok : Bool)
  | teaclave_frontend_set_credential (userId : String) (ret : Int)
  | teaclave_register_function_serialized (request : String) (capacityIn : Nat)
      (ret : Int)
  | memset_serialized_response (len : Nat)
  | teaclave_create_task_serialized (request : String) (capacityIn : Nat)
      (ret : Int)
  | teaclave_invoke_task (taskId : String) (ret : Int)
  | teaclave_get_task_result (taskId : String) (capacityIn : Nat) (ret : Int)
  | teaclave_close_frontend_service (handle : HandleState) (ret : Int)
  | stdout (m : Msg)
  | stderr (m : Msg)
deriving DecidableEq, Repr

/-- The outcomes the SDK / platform supplies to one run of `main`: each
call's return value, and the bytes and lengths the serialized calls write
into the caller's buffers. -/
structure Env where
  loginAdminRet : Int
  userRegisterRet : Int
  loginUserRet : Int
  connectOk : Bool
  setCredentialRet : Int
  registerFunctionRet : Int
  /-- contents written into `serialized_response` by the register call -/
  registerFunctionResp : String
  /-- value written into `serialized_response_len` by the register call -/
  registerFunctionRespLen : Nat
  createTaskRet : Int
  /-- contents written into `serialized_response` by the create-task call -/
  createTaskResp : String
  invokeTaskRet : Int
  getTaskResultRet : Int
  /-- contents written into `task_result` by the get-result call -/
  taskResult : String
  /-- return of `teaclave_close_frontend_service` on a valid handle -/
  closeValidRet : Int
  /-- return of `teaclave_close_frontend_service` on the uninitialized
  pointer: indeterminate, so environment-chosen -/
  closeUninitRet : Int
deriving DecidableEq, Repr

/-- Modelled from the spec: `teaclave_close_frontend_service` itself is SDK
code absent from `src/`; per the spec, closing "a connection that failed to
open ... reports failure and returns control to the caller", so on a `null`
handle it returns a nonzero failure code without crashing.  On a valid handle
the outcome is whatever the SDK returns (environment-chosen); on the
uninitialized pointer the behavior is undefined in C, modelled as an
environment-chosen value. -/
def closeRet (env : Env) : HandleState → Int
  | .uninit => env.closeUninitRet
  | .null => 1
  | .valid => env.closeValidRet

/-- The result of one run of `main`: its observable trace and the process
exit status (`exit(-1)` on the bail path, `return ret` on the success path). -/
structure RunResult where
  trace : List Event
  exitCode : Int
deriving DecidableEq, Repr

/-- The `bail:` label of `main`: close the frontend service on the current
handle, report a close failure on stderr, and `exit(-1)`. -/
def bailPath (env : Env) (handle : HandleState) (t : List Event) : RunResult :=
  { trace := t ++ [Event.teaclave_close_frontend_service handle
        (closeRet env handle)] ++
      (if closeRet env handle ≠ 0 then [Event.stderr Msg.failedClose] else []),
    exitCode := -1 }

/-- The successful tail of `main`: close the frontend service on the valid
handle, report a close failure on stderr, and `return ret` (the close call's
return value is the process status). -/
def successTail (env : Env) (t : List Event) : RunResult :=
  { trace := t ++ [Event.teaclave_close_frontend_service .valid
        (closeRet env .valid)] ++
      (if closeRet env .valid ≠ 0 then [Event.stderr Msg.failedClose] else []),
    exitCode := closeRet env .valid }

/-- `main` from the `teaclave_get_task_result` call on (`task_result_len` is
reset to `BUFFER_SIZE` just before the call). -/
def phaseGetResult (env : Env) (t : List Event) (task_id : String) : RunResult :=
  if env.getTaskResultRet ≠ 0 then
    bailPath env .valid (t ++ [Event.teaclave_get_task_result task_id
      BUFFER_SIZE env.getTaskResultRet] ++ [Event.stderr Msg.failedGetTaskResult])
  else
    successTail env (t ++ [Event.teaclave_get_task_result task_id BUFFER_SIZE
      env.getTaskResultRet] ++ [Event.stdout (Msg.taskResultShown env.taskResult)])

/-- `main` from the `teaclave_invoke_task` call on. -/
def phaseInvoke (env : Env) (t : List Event) (task_id : String) : RunResult :=
  if env.invokeTaskRet ≠ 0 then
    bailPath env .valid (t ++ [Event.teaclave_invoke_task task_id
      env.invokeTaskRet] ++ [Event.stderr Msg.failedInvokeTask])
  else
    phaseGetResult env
      (t ++ [Event.teaclave_invoke_task task_id env.invokeTaskRet]) task_id

/-- `main` from the `sscanf` of `task_id` on: `task_id` starts zeroed, the
scan leaves it empty unless the response carries the `taskIdTag` field. -/
def phaseParseTaskId (env : Env) (t : List Event) : RunResult :=
  phaseInvoke env
    (t ++ [Event.stdout (Msg.taskIdShown
      (scanStringField taskIdTag 41 env.createTaskResp ""))])
    (scanStringField taskIdTag 41 env.createTaskResp "")

/-- `main` from the `snprintf` of the create-task request on: the request is
built from the scanned `function_id`, `serialized_response` is zeroed by
`memset`, and `serialized_response_len` is passed as it was left by the
register call (`env.registerFunctionRespLen`), not reset to `BUFFER_SIZE`. -/
def phaseCreateTask (env : Env) (t : List Event) (function_id : String) :
    RunResult :=
  if env.createTaskRet ≠ 0 then
    bailPath env .valid (t ++ [Event.memset_serialized_response BUFFER_SIZE] ++
      [Event.teaclave_create_task_serialized
        ((create_task_request_with function_id).take (BUFFER_SIZE - 1))
        env.registerFunctionRespLen env.createTaskRet] ++
      [Event.stderr Msg.failedCreateTask])
  else
    phaseParseTaskId env (t ++ [Event.memset_serialized_response BUFFER_SIZE] ++
      [Event.teaclave_create_task_serialized
        ((create_task_request_with function_id).take (BUFFER_SIZE - 1))
        env.registerFunctionRespLen env.createTaskRet])

/-- `main` from the `sscanf` of `function_id` on. -/
def phaseParseFunctionId (env : Env) (t : List Event) : RunResult :=
  phaseCreateTask env
    (t ++ [Event.stdout (Msg.functionIdShown
      (scanStringField functionIdTag 45 env.registerFunctionResp ""))])
    (scanStringField functionIdTag 45 env.registerFunctionResp "")

/-- `main` from the `teaclave_register_function_serialized` call on
(`serialized_response_len` is initialized to `BUFFER_SIZE` here). -/
def phaseRegisterFunction (env : Env) (t : List Event) : RunResult :=
  if env.registerFunctionRet ≠ 0 then
    bailPath env .valid (t ++ [Event.teaclave_register_function_serialized
      register_function_request_serialized BUFFER_SIZE env.registerFunctionRet]
      ++ [Event.stderr Msg.failedRegisterFunction])
  else
    phaseParseFunctionId env
      (t ++ [Event.teaclave_register_function_serialized
        register_function_request_serialized BUFFER_SIZE env.registerFunctionRet])

/-- `main` from the `teaclave_frontend_set_credential` call on. -/
def phaseSetCredential (env : Env) (t : List Event) : RunResult :=
  if env.setCredentialRet ≠ 0 then
    bailPath env .valid (t ++ [Event.stdout Msg.credentialBanner,
      Event.teaclave_frontend_set_credential user_id env.setCredentialRet] ++
      [Event.stderr Msg.failedSetCredential])
  else
    phaseRegisterFunction env (t ++ [Event.stdout Msg.credentialBanner,
      Event.teaclave_frontend_set_credential user_id env.setCredentialRet])

/-- `main` from the `teaclave_connect_frontend_service` call on: on a `NULL`
return `ret` is set to 1 and the bail path runs with the null handle. -/
def phaseConnect (env : Env) (t : List Event) : RunResult :=
  if env.connectOk = false then
    bailPath env .null (t ++ [Event.stdout Msg.connectBanner,
      Event.teaclave_connect_frontend_service env.connectOk] ++
      [Event.stderr Msg.failedConnect])
  else
    phaseSetCredential env (t ++ [Event.stdout Msg.connectBanner,
      Event.teaclave_connect_frontend_service env.connectOk])

/-- `main` from the second `login` (the new user's) on; `token_len` is reset
to `BUFFER_SIZE` before the call.  A failure bails before `frontend_client`
is initialized. -/
def phaseLoginUser (env : Env) (t : List Event) : RunResult :=
  if env.loginUserRet ≠ 0 then
    bailPath env .uninit (t ++ [Event.stdout Msg.loginBanner,
      Event.login user_id BUFFER_SIZE env.loginUserRet] ++
      [Event.stderr Msg.failedLogin])
  else
    phaseConnect env (t ++ [Event.stdout Msg.loginBanner,
      Event.login user_id BUFFER_SIZE env.loginUserRet])

/-- `main` from the `user_register` call on: a nonzero return only prints
"Failed to register. Ignore." and execution falls through to the login. -/
def phaseRegisterUser (env : Env) (t : List Event) : RunResult :=
  phaseLoginUser env
    (t ++ [Event.user_register admin_user_id user_id env.userRegisterRet] ++
      (if env.userRegisterRet ≠ 0 then [Event.stderr Msg.failedRegister] else []))

/-- The C `main`, translated statement by statement: the admin login, then
the phases above in the source's order.  Local buffers start zeroed
(`function_id` and `task_id` start as the empty string); `goto bail` before
the declaration of `frontend_client` reaches the close call with the pointer
uninitialized. -/
def main (env : Env) : RunResult :=
  if env.loginAdminRet ≠ 0 then
    bailPath env .uninit ([Event.stdout Msg.registering,
      Event.login admin_user_id BUFFER_SIZE env.loginAdminRet] ++
      [Event.stderr Msg.failedLogin])
  else
    phaseRegisterUser env [Event.stdout Msg.registering,
      Event.login admin_user_id BUFFER_SIZE env.loginAdminRet]

/-! ### Derived predicates and projections -/

/-- Both logins succeeded. -/
abbrev loginsOk (env : Env) : Prop :=
  env.loginAdminRet = 0 ∧ env.loginUserRet = 0

/-- Both logins, the connect and `teaclave_frontend_set_credential`
succeeded. -/
abbrev credentialedOk (env : Env) : Prop :=
  loginsOk env ∧ env.connectOk = true ∧ env.setCredentialRet = 0

/-- Everything up to and including the function registration succeeded. -/
abbrev okThroughRegister (env : Env) : Prop :=
  credentialedOk env ∧ env.registerFunctionRet = 0

/-- Everything up to and including task creation succeeded. -/
abbrev okThroughCreate (env : Env) : Prop :=
  okThroughRegister env ∧ env.createTaskRet = 0

/-- Everything up to and including task invocation succeeded. -/
abbrev okThroughInvoke (env : Env) : Prop :=
  okThroughCreate env ∧ env.invokeTaskRet = 0

/-- Every fatal call of the run succeeded (`user_register` is not among
them: its failure never bails). -/
abbrev allCallsOk (env : Env) : Prop :=
  okThroughInvoke env ∧ env.getTaskResultRet = 0

/-- The run reaches the `bail:` label. -/
abbrev bailTaken (env : Env) : Prop := ¬ allCallsOk env

/-- The `function_id` buffer after the first `sscanf`. -/
abbrev scannedFunctionId (env : Env) : String :=
  scanStringField functionIdTag 45 env.registerFunctionResp ""

/-- The `task_id` buffer after the second `sscanf`. -/
abbrev scannedTaskId (env : Env) : String :=
  scanStringField taskIdTag 41 env.createTaskResp ""

/-- The SDK calls of the example, used to state ordering properties over a
trace. -/
inductive Call
  | login
  | user_register
  | connect
  | set_credential
  | register_function
  | create_task
  | invoke_task
  | get_task_result
  | close
deriving DecidableEq, Repr

/-- The call an event performs, if any. -/
def callOf : Event → Option Call
  | .login .. => some .login
  | .user_register .. => some .user_register
  | .teaclave_connect_frontend_service _ => some .connect
  | .teaclave_frontend_set_credential .. => some .set_credential
  | .teaclave_register_function_serialized .. => some .register_function
  | .teaclave_create_task_serialized .. => some .create_task
  | .teaclave_invoke_task .. => some .invoke_task
  | .teaclave_get_task_result .. => some .get_task_result
  | .teaclave_close_frontend_service .. => some .close
  | .memset_serialized_response _ => none
  | .stdout _ => none
  | .stderr _ => none

/-- The sequence of SDK calls a trace performs, in order. -/
def callSeq (t : List Event) : List Call := t.filterMap callOf

/-- The handle state and return value of an event, if it is a close call. -/
def closeOf : Event → Option (HandleState × Int)
  | .teaclave_close_frontend_service h r => some (h, r)
  | _ => none

/-- The close calls of a trace: handle state and return value, in order. -/
def closeCalls (t : List Event) : List (HandleState × Int) :=
  t.filterMap closeOf

/-- The diagnostic an event emits, if it is an stderr line. -/
def stderrOf : Event → Option Msg
  | .stderr m => some m
  | _ => none

/-- The stderr diagnostics of a trace, in order. -/
def stderrMsgs (t : List Event) : List Msg :=
  t.filterMap stderrOf

/-- The state of the `frontend_client` pointer at the single close call the
run performs: uninitialized when a login failure bails before the pointer's
initializer runs, `null` when the connect returned `NULL`, `valid` once the
connect succeeded. -/
def closeHandle (env : Env) : HandleState :=
  if env.loginAdminRet ≠ 0 then .uninit
  else if env.loginUserRet ≠ 0 then .uninit
  else if env.connectOk = false then .null
  else .valid

/-! ### The close call of a run: exactly one, on the handle `closeHandle` -/

lemma closeCalls_append (a b : List Event) :
    closeCalls (a ++ b) = closeCalls a ++ closeCalls b := by
  simp [closeCalls]

lemma closeCalls_bailPath (env : Env) (h : HandleState) (t : List Event) :
    closeCalls (bailPath env h t).trace =
      closeCalls t ++ [(h, closeRet env h)] := by
  unfold bailPath
  split_ifs <;> simp [closeCalls, closeOf]

lemma closeCalls_successTail (env : Env) (t : List Event) :
    closeCalls (successTail env t).trace =
      closeCalls t ++ [(HandleState.valid, closeRet env .valid)] := by
  unfold successTail
  split_ifs <;> simp [closeCalls, closeOf]

lemma closeCalls_phaseGetResult (env : Env) (t : List Event) (tid : String) :
    closeCalls (phaseGetResult env t tid).trace =
      closeCalls t ++ [(HandleState.valid, closeRet env .valid)] := by
  unfold phaseGetResult
  split_ifs
  · rw [closeCalls_bailPath]; simp [closeCalls, closeOf]
  · rw [closeCalls_successTail]; simp [closeCalls, closeOf]

lemma closeCalls_phaseInvoke (env : Env) (t : List Event) (tid : String) :
    closeCalls (phaseInvoke env t tid).trace =
      closeCalls t ++ [(HandleState.valid, closeRet env .valid)] := by
  unfold phaseInvoke
  split_ifs
  · rw [closeCalls_bailPath]; simp [closeCalls, closeOf]
  · rw [closeCalls_phaseGetResult]; simp [closeCalls, closeOf]

lemma closeCalls_phaseParseTaskId (env : Env) (t : List Event) :
    closeCalls (phaseParseTaskId env t).trace =
      closeCalls t ++ [(HandleState.valid, closeRet env .valid)] := by
  unfold phaseParseTaskId
  rw [closeCalls_phaseInvoke]; simp [closeCalls, closeOf]

lemma closeCalls_phaseCreateTask (env : Env) (t : List Event) (fid : String) :
    closeCalls (phaseCreateTask env t fid).trace =
      closeCalls t ++ [(HandleState.valid, closeRet env .valid)] := by
  unfold phaseCreateTask
  split_ifs
  · rw [closeCalls_bailPath]; simp [closeCalls, closeOf]
  · rw [closeCalls_phaseParseTaskId]; simp [closeCalls, closeOf]

lemma closeCalls_phaseParseFunctionId (env : Env) (t : List Event) :
    closeCalls (phaseParseFunctionId env t).trace =
      closeCalls t ++ [(HandleState.valid, closeRet env .valid)] := by
  unfold phaseParseFunctionId
  rw [closeCalls_phaseCreateTask]; simp [closeCalls, closeOf]

lemma closeCalls_phaseRegisterFunction (env : Env) (t : List Event) :
    closeCalls (phaseRegisterFunction env t).trace =
      closeCalls t ++ [(HandleState.valid, closeRet env .valid)] := by
  unfold phaseRegisterFunction
  split_ifs
  · rw [closeCalls_bailPath]; simp [closeCalls, closeOf]
  · rw [closeCalls_phaseParseFunctionId]; simp [closeCalls, closeOf]

lemma closeCalls_phaseSetCredential (env : Env) (t : List Event) :
    closeCalls (phaseSetCredential env t).trace =
      closeCalls t ++ [(HandleState.valid, closeRet env .valid)] := by
  unfold phaseSetCredential
  split_ifs
  · rw [closeCalls_bailPath]; simp [closeCalls, closeOf]
  · rw [closeCalls_phaseRegisterFunction]; simp [closeCalls, closeOf]

lemma closeCalls_phaseConnect (env : Env) (t : List Event) :
    closeCalls (phaseConnect env t).trace =
      closeCalls t ++
        [(if env.connectOk = false then HandleState.null else HandleState.valid,
          closeRet env (if env.connectOk = false then .null else .valid))] := by
  unfold phaseConnect
  split_ifs with h
  · rw [closeCalls_bailPath]; simp [h, closeCalls, closeOf]
  · rw [closeCalls_phaseSetCredential]; simp [h, closeCalls, closeOf]

lemma closeCalls_phaseLoginUser (env : Env) (t : List Event) :
    closeCalls (phaseLoginUser env t).trace =
      closeCalls t ++
        [(if env.loginUserRet ≠ 0 then HandleState.uninit
          else if env.connectOk = false then .null else .valid,
          closeRet env (if env.loginUserRet ≠ 0 then .uninit
            else if env.connectOk = false then .null else .valid))] := by
  by_cases h : env.loginUserRet ≠ 0
  · unfold phaseLoginUser
    rw [if_pos h, closeCalls_bailPath]
    simp [h, closeCalls, closeOf]
  · unfold phaseLoginUser
    rw [if_neg h, closeCalls_phaseConnect]
    simp [h, closeCalls, closeOf]

lemma closeCalls_phaseRegisterUser (env : Env) (t : List Event) :
    closeCalls (phaseRegisterUser env t).trace =
      closeCalls t ++
        [(if env.loginUserRet ≠ 0 then HandleState.uninit
          else if env.connectOk = false then .null else .valid,
          closeRet env (if env.loginUserRet ≠ 0 then .uninit
            else if env.connectOk = false then .null else .valid))] := by
  unfold phaseRegisterUser
  rw [closeCalls_phaseLoginUser]
  by_cases h : env.userRegisterRet ≠ 0 <;> simp [h, closeCalls, closeOf]

lemma closeCalls_main (env : Env) :
    closeCalls (main env).trace =
      [(closeHandle env, closeRet env (closeHandle env))] := by
  by_cases h : env.loginAdminRet ≠ 0
  · unfold main closeHandle
    rw [if_pos h, closeCalls_bailPath]
    simp [h, closeCalls, closeOf]
  · unfold main closeHandle
    rw [if_neg h, closeCalls_phaseRegisterUser]
    simp [h, closeCalls, closeOf]

/-! ### The trace prefixes of `main`, stage by stage -/

/-- Trace after the "Registering" banner and the admin login. -/
def trace0 (env : Env) : List Event :=
  [Event.stdout Msg.registering,
   Event.login admin_user_id BUFFER_SIZE env.loginAdminRet]

/-- Trace after `user_register` (with its non-fatal diagnostic). -/
def trace1 (env : Env) : List Event :=
  trace0 env ++ [Event.user_register admin_user_id user_id env.userRegisterRet]
    ++ (if env.userRegisterRet ≠ 0 then [Event.stderr Msg.failedRegister] else [])

/-- Trace after the "Login" banner and the user login. -/
def trace2 (env : Env) : List Event :=
  trace1 env ++ [Event.stdout Msg.loginBanner,
    Event.login user_id BUFFER_SIZE env.loginUserRet]

/-- Trace after the connect banner and the connect call. -/
def trace3 (env : Env) : List Event :=
  trace2 env ++ [Event.stdout Msg.connectBanner,
    Event.teaclave_connect_frontend_service env.connectOk]

/-- Trace after the credential banner and `teaclave_frontend_set_credential`. -/
def trace4 (env : Env) : List Event :=
  trace3 env ++ [Event.stdout Msg.credentialBanner,
    Event.teaclave_frontend_set_credential user_id env.setCredentialRet]

/-- Trace after `teaclave_register_function_serialized`. -/
def trace5 (env : Env) : List Event :=
  trace4 env ++ [Event.teaclave_register_function_serialized
    register_function_request_serialized BUFFER_SIZE env.registerFunctionRet]

/-- Trace after the `sscanf` of `function_id` and its `printf`. -/
def trace6 (env : Env) : List Event :=
  trace5 env ++ [Event.stdout (Msg.functionIdShown (scannedFunctionId env))]

/-- The serialized create-task request `main` sends: the source's template
with the scanned `function_id` substituted, truncated by `snprintf` to
`BUFFER_SIZE - 1` characters. -/
def createTaskRequestSent (env : Env) : String :=
  (create_task_request_with (scannedFunctionId env)).take (BUFFER_SIZE - 1)

/-- Trace after the `memset` and `teaclave_create_task_serialized`;
the in/out capacity passed is `env.registerFunctionRespLen`, the length
output of the register call. -/
def trace7 (env : Env) : List Event :=
  trace6 env ++ [Event.memset_serialized_response BUFFER_SIZE] ++
    [Event.teaclave_create_task_serialized (createTaskRequestSent env)
      env.registerFunctionRespLen env.createTaskRet]

/-- Trace after the `sscanf` of `task_id` and its `printf`. -/
def trace8 (env : Env) : List Event :=
  trace7 env ++ [Event.stdout (Msg.taskIdShown (scannedTaskId env))]

/-- Trace after `teaclave_invoke_task`. -/
def trace9 (env : Env) : List Event :=
  trace8 env ++ [Event.teaclave_invoke_task (scannedTaskId env) env.invokeTaskRet]

/-- Trace after `teaclave_get_task_result`. -/
def trace10 (env : Env) : List Event :=
  trace9 env ++ [Event.teaclave_get_task_result (scannedTaskId env) BUFFER_SIZE
    env.getTaskResultRet]

/-! ### Case lemmas: how each run of `main` ends -/

lemma main_eq_registerUser (env : Env) (h1 : env.loginAdminRet = 0) :
    main env = phaseRegisterUser env (trace0 env) := by
  rw [main, if_neg (not_ne_iff.mpr h1)]
  rfl

lemma main_eq_loginUser (env : Env) (h1 : env.loginAdminRet = 0) :
    main env = phaseLoginUser env (trace1 env) := by
  rw [main_eq_registerUser env h1, phaseRegisterUser]
  rfl

lemma main_eq_connect (env : Env) (h1 : env.loginAdminRet = 0)
    (h2 : env.loginUserRet = 0) :
    main env = phaseConnect env (trace2 env) := by
  rw [main_eq_loginUser env h1, phaseLoginUser, if_neg (not_ne_iff.mpr h2)]
  rfl

lemma main_eq_setCredential (env : Env) (h1 : env.loginAdminRet = 0)
    (h2 : env.loginUserRet = 0) (h3 : env.connectOk = true) :
    main env = phaseSetCredential env (trace3 env) := by
  rw [main_eq_connect env h1 h2, phaseConnect, if_neg (by simp [h3])]
  rfl

lemma main_eq_registerFunction (env : Env) (h1 : env.loginAdminRet = 0)
    (h2 : env.loginUserRet = 0) (h3 : env.connectOk = true)
    (h4 : env.setCredentialRet = 0) :
    main env = phaseRegisterFunction env (trace4 env) := by
  rw [main_eq_setCredential env h1 h2 h3, phaseSetCredential,
    if_neg (not_ne_iff.mpr h4)]
  rfl

lemma main_eq_createTask (env : Env) (h1 : env.loginAdminRet = 0)
    (h2 : env.loginUserRet = 0) (h3 : env.connectOk = true)
    (h4 : env.setCredentialRet = 0) (h5 : env.registerFunctionRet = 0) :
    main env = phaseCreateTask env (trace6 env) (scannedFunctionId env) := by
  rw [main_eq_registerFunction env h1 h2 h3 h4, phaseRegisterFunction,
    if_neg (not_ne_iff.mpr h5), phaseParseFunctionId]
  rfl

lemma main_eq_invoke (env : Env) (h1 : env.loginAdminRet = 0)
    (h2 : env.loginUserRet = 0) (h3 : env.connectOk = true)
    (h4 : env.setCredentialRet = 0) (h5 : env.registerFunctionRet = 0)
    (h6 : env.createTaskRet = 0) :
    main env = phaseInvoke env (trace8 env) (scannedTaskId env) := by
  rw [main_eq_createTask env h1 h2 h3 h4 h5, phaseCreateTask,
    if_neg (not_ne_iff.mpr h6), phaseParseTaskId]
  rfl

lemma main_eq_getResult (env : Env) (h1 : env.loginAdminRet = 0)
    (h2 : env.loginUserRet = 0) (h3 : env.connectOk = true)
    (h4 : env.setCredentialRet = 0) (h5 : env.registerFunctionRet = 0)
    (h6 : env.createTaskRet = 0) (h7 : env.invokeTaskRet = 0) :
    main env = phaseGetResult env (trace9 env) (scannedTaskId env) := by
  rw [main_eq_invoke env h1 h2 h3 h4 h5 h6, phaseInvoke,
    if_neg (not_ne_iff.mpr h7)]
  rfl

lemma main_eq_success (env : Env) (h1 : env.loginAdminRet = 0)
    (h2 : env.loginUserRet = 0) (h3 : env.connectOk = true)
    (h4 : env.setCredentialRet = 0) (h5 : env.registerFunctionRet = 0)
    (h6 : env.createTaskRet = 0) (h7 : env.invokeTaskRet = 0)
    (h8 : env.getTaskResultRet = 0) :
    main env = successTail env
      (trace10 env ++ [Event.stdout (Msg.taskResultShown env.taskResult)]) := by
  rw [main_eq_getResult env h1 h2 h3 h4 h5 h6 h7, phaseGetResult,
    if_neg (not_ne_iff.mpr h8)]
  rfl

lemma main_eq_bail_admin (env : Env) (h : env.loginAdminRet ≠ 0) :
    main env = bailPath env .uninit
      (trace0 env ++ [Event.stderr Msg.failedLogin]) := by
  rw [main, if_pos h]
  rfl

lemma main_eq_bail_loginUser (env : Env) (h1 : env.loginAdminRet = 0)
    (h : env.loginUserRet ≠ 0) :
    main env = bailPath env .uninit
      (trace2 env ++ [Event.stderr Msg.failedLogin]) := by
  rw [main_eq_loginUser env h1, phaseLoginUser, if_pos h]
  rfl

lemma main_eq_bail_connect (env : Env) (h1 : env.loginAdminRet = 0)
    (h2 : env.loginUserRet = 0) (h : env.connectOk = false) :
    main env = bailPath env .null
      (trace3 env ++ [Event.stderr Msg.failedConnect]) := by
  rw [main_eq_connect env h1 h2, phaseConnect, if_pos h]
  rfl

lemma main_eq_bail_setCredential (env : Env) (h1 : env.loginAdminRet = 0)
    (h2 : env.loginUserRet = 0) (h3 : env.connectOk = true)
    (h : env.setCredentialRet ≠ 0) :
    main env = bailPath env .valid
      (trace4 env ++ [Event.stderr Msg.failedSetCredential]) := by
  rw [main_eq_setCredential env h1 h2 h3, phaseSetCredential, if_pos h]
  rfl

lemma main_eq_bail_registerFunction (env : Env) (h1 : env.loginAdminRet = 0)
    (h2 : env.loginUserRet = 0) (h3 : env.connectOk = true)
    (h4 : env.setCredentialRet = 0) (h : env.registerFunctionRet ≠ 0) :
    main env = bailPath env .valid
      (trace5 env ++ [Event.stderr Msg.failedRegisterFunction]) := by
  rw [main_eq_registerFunction env h1 h2 h3 h4, phaseRegisterFunction, if_pos h]
  rfl

lemma main_eq_bail_createTask (env : Env) (h1 : env.loginAdminRet = 0)
    (h2 : env.loginUserRet = 0) (h3 : env.connectOk = true)
    (h4 : env.setCredentialRet = 0) (h5 : env.registerFunctionRet = 0)
    (h : env.createTaskRet ≠ 0) :
    main env = bailPath env .valid
      (trace7 env ++ [Event.stderr Msg.failedCreateTask]) := by
  rw [main_eq_createTask env h1 h2 h3 h4 h5, phaseCreateTask, if_pos h]
  rfl

lemma main_eq_bail_invoke (env : Env) (h1 : env.loginAdminRet = 0)
    (h2 : env.loginUserRet = 0) (h3 : env.connectOk = true)
    (h4 : env.setCredentialRet = 0) (h5 : env.registerFunctionRet = 0)
    (h6 : env.createTaskRet = 0) (h : env.invokeTaskRet ≠ 0) :
    main env = bailPath env .valid
      (trace9 env ++ [Event.stderr Msg.failedInvokeTask]) := by
  rw [main_eq_invoke env h1 h2 h3 h4 h5 h6, phaseInvoke, if_pos h]
  rfl

lemma main_eq_bail_getResult (env : Env) (h1 : env.loginAdminRet = 0)
    (h2 : env.loginUserRet = 0) (h3 : env.connectOk = true)
    (h4 : env.setCredentialRet = 0) (h5 : env.registerFunctionRet = 0)
    (h6 : env.createTaskRet = 0) (h7 : env.invokeTaskRet = 0)
    (h : env.getTaskResultRet ≠ 0) :
    main env = bailPath env .valid
      (trace10 env ++ [Event.stderr Msg.failedGetTaskResult]) := by
  rw [main_eq_getResult env h1 h2 h3 h4 h5 h6 h7, phaseGetResult, if_pos h]
  rfl

/-! ### Exit status of a run -/

lemma main_exitCode (env : Env) :
    (main env).exitCode = if allCallsOk env then env.closeValidRet else -1 := by
  by_cases h1 : env.loginAdminRet = 0
  case neg =>
    rw [main_eq_bail_admin env h1,
      if_neg (by simp [allCallsOk, okThroughInvoke, okThroughCreate,
        okThroughRegister, credentialedOk, loginsOk, h1])]
    rfl
  case pos =>
  by_cases h2 : env.loginUserRet = 0
  case neg =>
    rw [main_eq_bail_loginUser env h1 h2,
      if_neg (by simp [allCallsOk, okThroughInvoke, okThroughCreate,
        okThroughRegister, credentialedOk, loginsOk, h2])]
    rfl
  case pos =>
  by_cases h3 : env.connectOk = true
  case neg =>
    rw [main_eq_bail_connect env h1 h2 (Bool.not_eq_true _ ▸ h3),
      if_neg (by simp [allCallsOk, okThroughInvoke, okThroughCreate,
        okThroughRegister, credentialedOk, loginsOk, h3])]
    rfl
  case pos =>
  by_cases h4 : env.setCredentialRet = 0
  case neg =>
    rw [main_eq_bail_setCredential env h1 h2 h3 h4,
      if_neg (by simp [allCallsOk, okThroughInvoke, okThroughCreate,
        okThroughRegister, credentialedOk, loginsOk, h4])]
    rfl
  case pos =>
  by_cases h5 : env.registerFunctionRet = 0
  case neg =>
    rw [main_eq_bail_registerFunction env h1 h2 h3 h4 h5,
      if_neg (by simp [allCallsOk, okThroughInvoke, okThroughCreate,
        okThroughRegister, h5])]
    rfl
  case pos =>
  by_cases h6 : env.createTaskRet = 0
  case neg =>
    rw [main_eq_bail_createTask env h1 h2 h3 h4 h5 h6,
      if_neg (by simp [allCallsOk, okThroughInvoke, okThroughCreate, h6])]
    rfl
  case pos =>
  by_cases h7 : env.invokeTaskRet = 0
  case neg =>
    rw [main_eq_bail_invoke env h1 h2 h3 h4 h5 h6 h7,
      if_neg (by simp [allCallsOk, okThroughInvoke, h7])]
    rfl
  case pos =>
  by_cases h8 : env.getTaskResultRet = 0
  case neg =>
    rw [main_eq_bail_getResult env h1 h2 h3 h4 h5 h6 h7 h8,
      if_neg (by simp [allCallsOk, h8])]
    rfl
  case pos =>
    rw [main_eq_success env h1 h2 h3 h4 h5 h6 h7 h8,
      if_pos (by exact ⟨⟨⟨⟨⟨⟨h1, h2⟩, h3, h4⟩, h5⟩, h6⟩, h7⟩, h8⟩)]
    rfl

/-! ### The call sequence of a run -/

/-- The calls `main` performs from `teaclave_invoke_task` on. -/
def callsFromInvoke (env : Env) : List Call :=
  Call.invoke_task :: (if env.invokeTaskRet ≠ 0 then [Call.close]
    else [Call.get_task_result, Call.close])

/-- The calls `main` performs from `teaclave_create_task_serialized` on. -/
def callsFromCreate (env : Env) : List Call :=
  Call.create_task :: (if env.createTaskRet ≠ 0 then [Call.close]
    else callsFromInvoke env)

/-- The calls `main` performs from `teaclave_register_function_serialized`
on. -/
def callsFromRegisterFunction (env : Env) : List Call :=
  Call.register_function :: (if env.registerFunctionRet ≠ 0 then [Call.close]
    else callsFromCreate env)

/-- The calls `main` performs from `teaclave_frontend_set_credential` on. -/
def callsFromSetCredential (env : Env) : List Call :=
  Call.set_credential :: (if env.setCredentialRet ≠ 0 then [Call.close]
    else callsFromRegisterFunction env)

/-- The calls `main` performs from `teaclave_connect_frontend_service` on. -/
def callsFromConnect (env : Env) : List Call :=
  Call.connect :: (if env.connectOk = false then [Call.close]
    else callsFromSetCredential env)

/-- The calls `main` performs from the user's `login` on. -/
def callsFromLoginUser (env : Env) : List Call :=
  Call.login :: (if env.loginUserRet ≠ 0 then [Call.close]
    else callsFromConnect env)

/-- The full call sequence of a run of `main` as a function of the
environment's outcomes. -/
def mainCalls (env : Env) : List Call :=
  Call.login :: (if env.loginAdminRet ≠ 0 then [Call.close]
    else Call.user_register :: callsFromLoginUser env)

lemma callSeq_main (env : Env) :
    callSeq (main env).trace = mainCalls env := by
  by_cases h1 : env.loginAdminRet = 0
  case neg =>
    rw [main_eq_bail_admin env h1]
    simp [mainCalls, h1, callSeq, callOf, bailPath, trace0, apply_ite]
  case pos =>
  by_cases h2 : env.loginUserRet = 0
  case neg =>
    rw [main_eq_bail_loginUser env h1 h2]
    by_cases hr : env.userRegisterRet = 0 <;>
    simp [hr, mainCalls, callsFromLoginUser, h1, h2, callSeq, callOf, bailPath,
      trace2, trace1, trace0, apply_ite]
  case pos =>
  by_cases h3 : env.connectOk = true
  case neg =>
    rw [main_eq_bail_connect env h1 h2 (Bool.not_eq_true _ ▸ h3)]
    by_cases hr : env.userRegisterRet = 0 <;>
    simp [hr, mainCalls, callsFromLoginUser, callsFromConnect, h1, h2, h3,
      callSeq, callOf, bailPath, trace3, trace2, trace1, trace0, apply_ite]
  case pos =>
  by_cases h4 : env.setCredentialRet = 0
  case neg =>
    rw [main_eq_bail_setCredential env h1 h2 h3 h4]
    by_cases hr : env.userRegisterRet = 0 <;>
    simp [hr, mainCalls, callsFromLoginUser, callsFromConnect,
      callsFromSetCredential, h1, h2, h3, h4, callSeq, callOf, bailPath,
      trace4, trace3, trace2, trace1, trace0, apply_ite]
  case pos =>
  by_cases h5 : env.registerFunctionRet = 0
  case neg =>
    rw [main_eq_bail_registerFunction env h1 h2 h3 h4 h5]
    by_cases hr : env.userRegisterRet = 0 <;>
    simp [hr, mainCalls, callsFromLoginUser, callsFromConnect,
      callsFromSetCredential, callsFromRegisterFunction, h1, h2, h3, h4, h5,
      callSeq, callOf, bailPath, trace5, trace4, trace3, trace2, trace1,
      trace0, apply_ite]
  case pos =>
  by_cases h6 : env.createTaskRet = 0
  case neg =>
    rw [main_eq_bail_createTask env h1 h2 h3 h4 h5 h6]
    by_cases hr : env.userRegisterRet = 0 <;>
    simp [hr, mainCalls, callsFromLoginUser, callsFromConnect,
      callsFromSetCredential, callsFromRegisterFunction, callsFromCreate,
      h1, h2, h3, h4, h5, h6, callSeq, callOf, bailPath, trace7, trace6,
      trace5, trace4, trace3, trace2, trace1, trace0, apply_ite]
  case pos =>
  by_cases h7 : env.invokeTaskRet = 0
  case neg =>
    rw [main_eq_bail_invoke env h1 h2 h3 h4 h5 h6 h7]
    by_cases hr : env.userRegisterRet = 0 <;>
    simp [hr, mainCalls, callsFromLoginUser, callsFromConnect,
      callsFromSetCredential, callsFromRegisterFunction, callsFromCreate,
      callsFromInvoke, h1, h2, h3, h4, h5, h6, h7, callSeq, callOf, bailPath,
      trace9, trace8, trace7, trace6, trace5, trace4, trace3, trace2, trace1,
      trace0, apply_ite]
  case pos =>
  by_cases h8 : env.getTaskResultRet = 0
  case neg =>
    rw [main_eq_bail_getResult env h1 h2 h3 h4 h5 h6 h7 h8]
    by_cases hr : env.userRegisterRet = 0 <;>
    simp [hr, mainCalls, callsFromLoginUser, callsFromConnect,
      callsFromSetCredential, callsFromRegisterFunction, callsFromCreate,
      callsFromInvoke, h1, h2, h3, h4, h5, h6, h7, h8, callSeq, callOf,
      bailPath, trace10, trace9, trace8, trace7, trace6, trace5, trace4,
      trace3, trace2, trace1, trace0, apply_ite]
  case pos =>
    rw [main_eq_success env h1 h2 h3 h4 h5 h6 h7 h8]
    by_cases hr : env.userRegisterRet = 0 <;>
    simp [hr, mainCalls, callsFromLoginUser, callsFromConnect,
      callsFromSetCredential, callsFromRegisterFunction, callsFromCreate,
      callsFromInvoke, h1, h2, h3, h4, h5, h6, h7, h8, callSeq, callOf,
      successTail, trace10, trace9, trace8, trace7, trace6, trace5, trace4,
      trace3, trace2, trace1, trace0, apply_ite]

/-! ### Stderr diagnostics of a run -/

lemma bail_diag (env : Env) (hb : bailTaken env) :
    ∃ m, m ∈ stderrMsgs (main env).trace ∧ m ≠ Msg.failedClose := by
  by_cases h1 : env.loginAdminRet = 0
  case neg =>
    refine ⟨Msg.failedLogin, ?_, by simp⟩
    rw [main_eq_bail_admin env h1]
    simp [stderrMsgs, stderrOf, bailPath, trace0, apply_ite]
    all_goals try (split_ifs <;> simp_all)
  case pos =>
  by_cases h2 : env.loginUserRet = 0
  case neg =>
    refine ⟨Msg.failedLogin, ?_, by simp⟩
    rw [main_eq_bail_loginUser env h1 h2]
    simp [stderrMsgs, stderrOf, bailPath, trace2, trace1, trace0, apply_ite]
    all_goals try (split_ifs <;> simp_all)
  case pos =>
  by_cases h3 : env.connectOk = true
  case neg =>
    refine ⟨Msg.failedConnect, ?_, by simp⟩
    rw [main_eq_bail_connect env h1 h2 (Bool.not_eq_true _ ▸ h3)]
    simp [stderrMsgs, stderrOf, bailPath, trace3, trace2, trace1, trace0,
      apply_ite]
    all_goals try (split_ifs <;> simp_all)
  case pos =>
  by_cases h4 : env.setCredentialRet = 0
  case neg =>
    refine ⟨Msg.failedSetCredential, ?_, by simp⟩
    rw [main_eq_bail_setCredential env h1 h2 h3 h4]
    simp [stderrMsgs, stderrOf, bailPath, trace4, trace3, trace2, trace1,
      trace0, apply_ite]
    all_goals try (split_ifs <;> simp_all)
  case pos =>
  by_cases h5 : env.registerFunctionRet = 0
  case neg =>
    refine ⟨Msg.failedRegisterFunction, ?_, by simp⟩
    rw [main_eq_bail_registerFunction env h1 h2 h3 h4 h5]
    simp [stderrMsgs, stderrOf, bailPath, trace5, trace4, trace3, trace2,
      trace1, trace0, apply_ite]
    all_goals try (split_ifs <;> simp_all)
  case pos =>
  by_cases h6 : env.createTaskRet = 0
  case neg =>
    refine ⟨Msg.failedCreateTask, ?_, by simp⟩
    rw [main_eq_bail_createTask env h1 h2 h3 h4 h5 h6]
    simp [stderrMsgs, stderrOf, bailPath, trace7, trace6, trace5, trace4,
      trace3, trace2, trace1, trace0, apply_ite]
    all_goals try (split_ifs <;> simp_all)
  case pos =>
  by_cases h7 : env.invokeTaskRet = 0
  case neg =>
    refine ⟨Msg.failedInvokeTask, ?_, by simp⟩
    rw [main_eq_bail_invoke env h1 h2 h3 h4 h5 h6 h7]
    simp [stderrMsgs, stderrOf, bailPath, trace9, trace8, trace7, trace6,
      trace5, trace4, trace3, trace2, trace1, trace0, apply_ite]
    all_goals try (split_ifs <;> simp_all)
  case pos =>
  by_cases h8 : env.getTaskResultRet = 0
  case neg =>
    refine ⟨Msg.failedGetTaskResult, ?_, by simp⟩
    rw [main_eq_bail_getResult env h1 h2 h3 h4 h5 h6 h7 h8]
    simp [stderrMsgs, stderrOf, bailPath, trace10, trace9, trace8, trace7,
      trace6, trace5, trace4, trace3, trace2, trace1, trace0, apply_ite]
    all_goals try (split_ifs <;> simp_all)
  case pos =>
    exact absurd ⟨⟨⟨⟨⟨⟨h1, h2⟩, h3, h4⟩, h5⟩, h6⟩, h7⟩, h8⟩ hb

lemma close_failure_reported (env : Env)
    (h : closeRet env (closeHandle env) ≠ 0) :
    Msg.failedClose ∈ stderrMsgs (main env).trace := by
  by_cases h1 : env.loginAdminRet = 0
  case neg =>
    rw [main_eq_bail_admin env h1]
    simp only [closeHandle, closeRet, h1] at h
    simp_all [stderrMsgs, stderrOf, bailPath, closeRet, trace0, apply_ite]
  case pos =>
  by_cases h2 : env.loginUserRet = 0
  case neg =>
    rw [main_eq_bail_loginUser env h1 h2]
    simp only [closeHandle, closeRet, h1, h2] at h
    simp_all [stderrMsgs, stderrOf, bailPath, closeRet, trace2, trace1,
      trace0, apply_ite]
  case pos =>
  by_cases h3 : env.connectOk = true
  case neg =>
    rw [main_eq_bail_connect env h1 h2 (Bool.not_eq_true _ ▸ h3)]
    simp only [closeHandle, closeRet, h1, h2, h3] at h
    simp_all [stderrMsgs, stderrOf, bailPath, closeRet, trace3, trace2,
      trace1, trace0, apply_ite]
  case pos =>
  by_cases h4 : env.setCredentialRet = 0
  case neg =>
    rw [main_eq_bail_setCredential env h1 h2 h3 h4]
    simp only [closeHandle, closeRet, h1, h2, h3] at h
    simp_all [stderrMsgs, stderrOf, bailPath, closeRet, trace4, trace3,
      trace2, trace1, trace0, apply_ite]
  case pos =>
  by_cases h5 : env.registerFunctionRet = 0
  case neg =>
    rw [main_eq_bail_registerFunction env h1 h2 h3 h4 h5]
    simp only [closeHandle, closeRet, h1, h2, h3] at h
    simp_all [stderrMsgs, stderrOf, bailPath, closeRet, trace5, trace4,
      trace3, trace2, trace1, trace0, apply_ite]
  case pos =>
  by_cases h6 : env.createTaskRet = 0
  case neg =>
    rw [main_eq_bail_createTask env h1 h2 h3 h4 h5 h6]
    simp only [closeHandle, closeRet, h1, h2, h3] at h
    simp_all [stderrMsgs, stderrOf, bailPath, closeRet, trace7, trace6,
      trace5, trace4, trace3, trace2, trace1, trace0, apply_ite]
  case pos =>
  by_cases h7 : env.invokeTaskRet = 0
  case neg =>
    rw [main_eq_bail_invoke env h1 h2 h3 h4 h5 h6 h7]
    simp only [closeHandle, closeRet, h1, h2, h3] at h
    simp_all [stderrMsgs, stderrOf, bailPath, closeRet, trace9, trace8,
      trace7, trace6, trace5, trace4, trace3, trace2, trace1, trace0,
      apply_ite]
  case pos =>
  by_cases h8 : env.getTaskResultRet = 0
  case neg =>
    rw [main_eq_bail_getResult env h1 h2 h3 h4 h5 h6 h7 h8]
    simp only [closeHandle, closeRet, h1, h2, h3] at h
    simp_all [stderrMsgs, stderrOf, bailPath, closeRet, trace10, trace9,
      trace8, trace7, trace6, trace5, trace4, trace3, trace2, trace1,
      trace0, apply_ite]
  case pos =>
    rw [main_eq_success env h1 h2 h3 h4 h5 h6 h7 h8]
    simp only [closeHandle, closeRet, h1, h2, h3] at h
    simp_all [stderrMsgs, stderrOf, successTail, closeRet, trace10, trace9,
      trace8, trace7, trace6, trace5, trace4, trace3, trace2, trace1,
      trace0, apply_ite]

lemma stderrMsgs_success_empty (env : Env) (h1 : env.loginAdminRet = 0)
    (h2 : env.loginUserRet = 0) (h3 : env.connectOk = true)
    (h4 : env.setCredentialRet = 0) (h5 : env.registerFunctionRet = 0)
    (h6 : env.createTaskRet = 0) (h7 : env.invokeTaskRet = 0)
    (h8 : env.getTaskResultRet = 0) (hr : env.userRegisterRet = 0)
    (hc : env.closeValidRet = 0) :
    stderrMsgs (main env).trace = [] := by
  rw [main_eq_success env h1 h2 h3 h4 h5 h6 h7 h8]
  simp [stderrMsgs, stderrOf, successTail, closeRet, hr, hc, trace10, trace9,
    trace8, trace7, trace6, trace5, trace4, trace3, trace2, trace1, trace0,
    apply_ite]

lemma register_failure_nonfatal_aux (env : Env) (h1 : env.loginAdminRet = 0)
    (h : env.userRegisterRet ≠ 0) :
    Msg.failedRegister ∈ stderrMsgs (main env).trace ∧
      Event.login user_id BUFFER_SIZE env.loginUserRet ∈ (main env).trace := by
  by_cases h2 : env.loginUserRet = 0
  case neg =>
    rw [main_eq_bail_loginUser env h1 h2]
    constructor <;>
      simp [h, stderrMsgs, stderrOf, bailPath, trace2, trace1, trace0,
        apply_ite]
    all_goals try (split_ifs <;> simp_all)
  case pos =>
  by_cases h3 : env.connectOk = true
  case neg =>
    rw [main_eq_bail_connect env h1 h2 (Bool.not_eq_true _ ▸ h3)]
    constructor <;>
      simp [h, h2, stderrMsgs, stderrOf, bailPath, trace3, trace2, trace1,
        trace0, apply_ite]
    all_goals try (split_ifs <;> simp_all)
  case pos =>
  by_cases h4 : env.setCredentialRet = 0
  case neg =>
    rw [main_eq_bail_setCredential env h1 h2 h3 h4]
    constructor <;>
      simp [h, h2, stderrMsgs, stderrOf, bailPath, trace4, trace3, trace2,
        trace1, trace0, apply_ite]
    all_goals try (split_ifs <;> simp_all)
  case pos =>
  by_cases h5 : env.registerFunctionRet = 0
  case neg =>
    rw [main_eq_bail_registerFunction env h1 h2 h3 h4 h5]
    constructor <;>
      simp [h, h2, stderrMsgs, stderrOf, bailPath, trace5, trace4, trace3,
        trace2, trace1, trace0, apply_ite]
    all_goals try (split_ifs <;> simp_all)
  case pos =>
  by_cases h6 : env.createTaskRet = 0
  case neg =>
    rw [main_eq_bail_createTask env h1 h2 h3 h4 h5 h6]
    constructor <;>
      simp [h, h2, stderrMsgs, stderrOf, bailPath, trace7, trace6, trace5,
        trace4, trace3, trace2, trace1, trace0, apply_ite]
    all_goals try (split_ifs <;> simp_all)
  case pos =>
  by_cases h7 : env.invokeTaskRet = 0
  case neg =>
    rw [main_eq_bail_invoke env h1 h2 h3 h4 h5 h6 h7]
    constructor <;>
      simp [h, h2, stderrMsgs, stderrOf, bailPath, trace9, trace8, trace7,
        trace6, trace5, trace4, trace3, trace2, trace1, trace0, apply_ite]
    all_goals try (split_ifs <;> simp_all)
  case pos =>
  by_cases h8 : env.getTaskResultRet = 0
  case neg =>
    rw [main_eq_bail_getResult env h1 h2 h3 h4 h5 h6 h7 h8]
    constructor <;>
      simp [h, h2, stderrMsgs, stderrOf, bailPath, trace10, trace9, trace8,
        trace7, trace6, trace5, trace4, trace3, trace2, trace1, trace0,
        apply_ite]
    all_goals try (split_ifs <;> simp_all)
  case pos =>
    rw [main_eq_success env h1 h2 h3 h4 h5 h6 h7 h8]
    constructor <;>
      simp [h, h2, stderrMsgs, stderrOf, successTail, trace10, trace9,
        trace8, trace7, trace6, trace5, trace4, trace3, trace2, trace1,
        trace0, apply_ite]
    all_goals try (split_ifs <;> simp_all)

/-! ### Properties of the `sscanf` identifier extraction -/

lemma scanField_length (tag : List Char) (width : Nat) (resp : List Char) :
    (scanField tag width resp).length ≤ width := by
  simp [scanField]

lemma scanField_nonspace (tag : List Char) (width : Nat) (resp : List Char) :
    ∀ c ∈ scanField tag width resp, isSpaceChar c = false := by
  intro c hc
  have h1 := List.take_subset width _ hc
  have h2 := List.mem_takeWhile_imp h1
  simpa using h2

lemma scanStringField_of_no_tag (tag : String) (width : Nat) (resp buf : String)
    (h : tag.data.isPrefixOf resp.data = false) :
    scanStringField tag width resp buf = buf := by
  simp [scanStringField, h]

lemma scanStringField_data_of_tag (tag : String) (width : Nat) (resp : String)
    (h : tag.data.isPrefixOf resp.data = true) :
    (scanStringField tag width resp "").data = scanField tag.data width resp.data := by
  simp only [scanStringField, h, if_true]
  split_ifs with he
  · simp_all [List.isEmpty_iff]
  · rfl

lemma scanField_infix (tag : List Char) (width : Nat) (resp : List Char) :
    scanField tag width resp <:+: resp.drop tag.length := by
  obtain ⟨t, ht⟩ :=
    (List.take_prefix width _).trans
      (List.takeWhile_prefix (fun c => !isSpaceChar c)
        (l := (resp.drop tag.length).dropWhile (fun c => isSpaceChar c)))
  obtain ⟨s, hs⟩ :=
    List.dropWhile_suffix (l := resp.drop tag.length) (p := fun c => isSpaceChar c)
  exact ⟨s, t, by rw [← hs, ← ht, List.append_assoc, scanField]⟩

/-! ### Ordering facts over the call sequence -/

/-- The privileged operations: function and task calls, which the spec says
require a credential on the connection. -/
def privilegedCall : Call → Bool
  | .register_function => true
  | .create_task => true
  | .invoke_task => true
  | .get_task_result => true
  | _ => false

lemma invoke_mem_callsFromCreate (env : Env) :
    Call.invoke_task ∈ callsFromCreate env ↔ env.createTaskRet = 0 := by
  by_cases h : env.createTaskRet = 0 <;>
    simp [callsFromCreate, callsFromInvoke, h]

lemma invoke_mem_callsFromRegisterFunction (env : Env) :
    Call.invoke_task ∈ callsFromRegisterFunction env ↔
      env.registerFunctionRet = 0 ∧ env.createTaskRet = 0 := by
  by_cases h : env.registerFunctionRet = 0 <;>
    simp [callsFromRegisterFunction, invoke_mem_callsFromCreate, h]

lemma invoke_mem_callsFromSetCredential (env : Env) :
    Call.invoke_task ∈ callsFromSetCredential env ↔
      env.setCredentialRet = 0 ∧ env.registerFunctionRet = 0 ∧
        env.createTaskRet = 0 := by
  by_cases h : env.setCredentialRet = 0 <;>
    simp [callsFromSetCredential, invoke_mem_callsFromRegisterFunction, h]

lemma invoke_mem_callsFromConnect (env : Env) :
    Call.invoke_task ∈ callsFromConnect env ↔
      env.connectOk = true ∧ env.setCredentialRet = 0 ∧
        env.registerFunctionRet = 0 ∧ env.createTaskRet = 0 := by
  by_cases h : env.connectOk = true <;>
    simp [callsFromConnect, invoke_mem_callsFromSetCredential, h]

lemma invoke_mem_callsFromLoginUser (env : Env) :
    Call.invoke_task ∈ callsFromLoginUser env ↔
      env.loginUserRet = 0 ∧ env.connectOk = true ∧
        env.setCredentialRet = 0 ∧ env.registerFunctionRet = 0 ∧
        env.createTaskRet = 0 := by
  by_cases h : env.loginUserRet = 0 <;>
    simp [callsFromLoginUser, invoke_mem_callsFromConnect, h]

lemma invoke_mem_mainCalls (env : Env) :
    Call.invoke_task ∈ mainCalls env ↔ okThroughCreate env := by
  by_cases h : env.loginAdminRet = 0 <;>
    simp [mainCalls, invoke_mem_callsFromLoginUser, h, okThroughCreate,
      okThroughRegister, credentialedOk, loginsOk, and_assoc]

lemma get_mem_callsFromInvoke (env : Env) :
    Call.get_task_result ∈ callsFromInvoke env ↔ env.invokeTaskRet = 0 := by
  by_cases h : env.invokeTaskRet = 0 <;> simp [callsFromInvoke, h]

lemma get_mem_callsFromCreate (env : Env) :
    Call.get_task_result ∈ callsFromCreate env ↔
      env.createTaskRet = 0 ∧ env.invokeTaskRet = 0 := by
  by_cases h : env.createTaskRet = 0 <;>
    simp [callsFromCreate, get_mem_callsFromInvoke, h]

lemma get_mem_callsFromRegisterFunction (env : Env) :
    Call.get_task_result ∈ callsFromRegisterFunction env ↔
      env.registerFunctionRet = 0 ∧ env.createTaskRet = 0 ∧
        env.invokeTaskRet = 0 := by
  by_cases h : env.registerFunctionRet = 0 <;>
    simp [callsFromRegisterFunction, get_mem_callsFromCreate, h]

lemma get_mem_callsFromSetCredential (env : Env) :
    Call.get_task_result ∈ callsFromSetCredential env ↔
      env.setCredentialRet = 0 ∧ env.registerFunctionRet = 0 ∧
        env.createTaskRet = 0 ∧ env.invokeTaskRet = 0 := by
  by_cases h : env.setCredentialRet = 0 <;>
    simp [callsFromSetCredential, get_mem_callsFromRegisterFunction, h]

lemma get_mem_callsFromConnect (env : Env) :
    Call.get_task_result ∈ callsFromConnect env ↔
      env.connectOk = true ∧ env.setCredentialRet = 0 ∧
        env.registerFunctionRet = 0 ∧ env.createTaskRet = 0 ∧
        env.invokeTaskRet = 0 := by
  by_cases h : env.connectOk = true <;>
    simp [callsFromConnect, get_mem_callsFromSetCredential, h]

lemma get_mem_callsFromLoginUser (env : Env) :
    Call.get_task_result ∈ callsFromLoginUser env ↔
      env.loginUserRet = 0 ∧ env.connectOk = true ∧
        env.setCredentialRet = 0 ∧ env.registerFunctionRet = 0 ∧
        env.createTaskRet = 0 ∧ env.invokeTaskRet = 0 := by
  by_cases h : env.loginUserRet = 0 <;>
    simp [callsFromLoginUser, get_mem_callsFromConnect, h]

lemma get_mem_mainCalls (env : Env) :
    Call.get_task_result ∈ mainCalls env ↔ okThroughInvoke env := by
  by_cases h : env.loginAdminRet = 0 <;>
    simp [mainCalls, get_mem_callsFromLoginUser, h, okThroughInvoke,
      okThroughCreate, okThroughRegister, credentialedOk, loginsOk, and_assoc]

lemma counts_callsFromInvoke (env : Env) :
    (callsFromInvoke env).count Call.create_task = 0 ∧
    (callsFromInvoke env).count Call.invoke_task ≤ 1 ∧
    (callsFromInvoke env).count Call.get_task_result ≤ 1 := by
  by_cases h : env.invokeTaskRet ≠ 0 <;> simp [callsFromInvoke, h]

lemma counts_callsFromCreate (env : Env) :
    (callsFromCreate env).count Call.create_task ≤ 1 ∧
    (callsFromCreate env).count Call.invoke_task ≤ 1 ∧
    (callsFromCreate env).count Call.get_task_result ≤ 1 := by
  obtain ⟨a, b, c⟩ := counts_callsFromInvoke env
  by_cases h : env.createTaskRet ≠ 0 <;>
    simp [callsFromCreate, h, List.count_cons, a, b, c]

lemma counts_callsFromRegisterFunction (env : Env) :
    (callsFromRegisterFunction env).count Call.create_task ≤ 1 ∧
    (callsFromRegisterFunction env).count Call.invoke_task ≤ 1 ∧
    (callsFromRegisterFunction env).count Call.get_task_result ≤ 1 := by
  obtain ⟨a, b, c⟩ := counts_callsFromCreate env
  by_cases h : env.registerFunctionRet ≠ 0 <;>
    simp [callsFromRegisterFunction, h, List.count_cons, a, b, c]

lemma counts_callsFromSetCredential (env : Env) :
    (callsFromSetCredential env).count Call.create_task ≤ 1 ∧
    (callsFromSetCredential env).count Call.invoke_task ≤ 1 ∧
    (callsFromSetCredential env).count Call.get_task_result ≤ 1 := by
  obtain ⟨a, b, c⟩ := counts_callsFromRegisterFunction env
  by_cases h : env.setCredentialRet ≠ 0 <;>
    simp [callsFromSetCredential, h, List.count_cons, a, b, c]

lemma counts_callsFromConnect (env : Env) :
    (callsFromConnect env).count Call.create_task ≤ 1 ∧
    (callsFromConnect env).count Call.invoke_task ≤ 1 ∧
    (callsFromConnect env).count Call.get_task_result ≤ 1 := by
  obtain ⟨a, b, c⟩ := counts_callsFromSetCredential env
  by_cases h : env.connectOk = false <;>
    simp [callsFromConnect, h, List.count_cons, a, b, c]

lemma counts_callsFromLoginUser (env : Env) :
    (callsFromLoginUser env).count Call.create_task ≤ 1 ∧
    (callsFromLoginUser env).count Call.invoke_task ≤ 1 ∧
    (callsFromLoginUser env).count Call.get_task_result ≤ 1 := by
  obtain ⟨a, b, c⟩ := counts_callsFromConnect env
  by_cases h : env.loginUserRet ≠ 0 <;>
    simp [callsFromLoginUser, h, List.count_cons, a, b, c]

lemma counts_mainCalls (env : Env) :
    (mainCalls env).count Call.create_task ≤ 1 ∧
    (mainCalls env).count Call.invoke_task ≤ 1 ∧
    (mainCalls env).count Call.get_task_result ≤ 1 := by
  obtain ⟨a, b, c⟩ := counts_callsFromLoginUser env
  by_cases h : env.loginAdminRet ≠ 0 <;>
    simp [mainCalls, h, List.count_cons, a, b, c]

lemma create_before_invoke_sublist (env : Env) (h : okThroughCreate env) :
    List.Sublist [Call.create_task, Call.invoke_task] (mainCalls env) := by
  obtain ⟨⟨⟨⟨h1, h2⟩, h3, h4⟩, h5⟩, h6⟩ := h
  have he : mainCalls env = Call.login :: Call.user_register :: Call.login ::
      Call.connect :: Call.set_credential :: Call.register_function ::
      Call.create_task :: callsFromInvoke env := by
    simp [mainCalls, callsFromLoginUser, callsFromConnect,
      callsFromSetCredential, callsFromRegisterFunction, callsFromCreate,
      h1, h2, h3, h4, h5, h6]
  rw [he, callsFromInvoke]
  repeat first
  | exact List.nil_sublist _
  | apply List.Sublist.cons₂
  | apply List.Sublist.cons

lemma invoke_before_get_sublist (env : Env) (h : okThroughInvoke env) :
    List.Sublist [Call.invoke_task, Call.get_task_result] (mainCalls env) := by
  obtain ⟨⟨⟨⟨⟨h1, h2⟩, h3, h4⟩, h5⟩, h6⟩, h7⟩ := h
  have he : mainCalls env = Call.login :: Call.user_register :: Call.login ::
      Call.connect :: Call.set_credential :: Call.register_function ::
      Call.create_task :: Call.invoke_task :: Call.get_task_result ::
      [Call.close] := by
    simp [mainCalls, callsFromLoginUser, callsFromConnect,
      callsFromSetCredential, callsFromRegisterFunction, callsFromCreate,
      callsFromInvoke, h1, h2, h3, h4, h5, h6, h7]
  rw [he]
  repeat first
  | exact List.nil_sublist _
  | apply List.Sublist.cons₂
  | apply List.Sublist.cons

lemma no_privileged_before_credential (env : Env) :
    ∀ c ∈ (mainCalls env).takeWhile (fun c => !(c == Call.set_credential)),
      privilegedCall c = false := by
  by_cases h1 : env.loginAdminRet = 0 <;>
  by_cases h2 : env.loginUserRet = 0 <;>
  by_cases h3 : env.connectOk = true <;>
  simp_all [mainCalls, callsFromLoginUser, callsFromConnect,
    callsFromSetCredential, privilegedCall]

/-! ### Event membership helpers -/

lemma invoke_event_mem (env : Env) (h1 : env.loginAdminRet = 0)
    (h2 : env.loginUserRet = 0) (h3 : env.connectOk = true)
    (h4 : env.setCredentialRet = 0) (h5 : env.registerFunctionRet = 0)
    (h6 : env.createTaskRet = 0) :
    Event.teaclave_invoke_task (scannedTaskId env) env.invokeTaskRet ∈
      (main env).trace := by
  by_cases h7 : env.invokeTaskRet = 0
  case neg =>
    rw [main_eq_bail_invoke env h1 h2 h3 h4 h5 h6 h7]
    simp [bailPath, trace9, trace8, trace7, trace6, trace5, trace4, trace3,
      trace2, trace1, trace0, apply_ite]
    all_goals try (split_ifs <;> simp)
  case pos =>
  by_cases h8 : env.getTaskResultRet = 0
  case neg =>
    rw [main_eq_bail_getResult env h1 h2 h3 h4 h5 h6 h7 h8]
    simp [bailPath, trace10, trace9, trace8, trace7, trace6, trace5, trace4,
      trace3, trace2, trace1, trace0, apply_ite]
    all_goals try (split_ifs <;> simp)
  case pos =>
    rw [main_eq_success env h1 h2 h3 h4 h5 h6 h7 h8]
    simp [successTail, trace10, trace9, trace8, trace7, trace6, trace5,
      trace4, trace3, trace2, trace1, trace0, apply_ite]
    all_goals try (split_ifs <;> simp)

lemma setCredential_event_mem (env : Env) (h1 : env.loginAdminRet = 0)
    (h2 : env.loginUserRet = 0) (h3 : env.connectOk = true)
    (h4 : env.setCredentialRet = 0) :
    Event.teaclave_frontend_set_credential user_id env.setCredentialRet ∈
      (main env).trace := by
  by_cases h5 : env.registerFunctionRet = 0
  case neg =>
    rw [main_eq_bail_registerFunction env h1 h2 h3 h4 h5]
    simp [bailPath, trace5, trace4, trace3, trace2, trace1, trace0, apply_ite]
    all_goals try (split_ifs <;> simp)
  case pos =>
  by_cases h6 : env.createTaskRet = 0
  case neg =>
    rw [main_eq_bail_createTask env h1 h2 h3 h4 h5 h6]
    simp [bailPath, trace7, trace6, trace5, trace4, trace3, trace2, trace1,
      trace0, apply_ite]
    all_goals try (split_ifs <;> simp)
  case pos =>
  by_cases h7 : env.invokeTaskRet = 0
  case neg =>
    rw [main_eq_bail_invoke env h1 h2 h3 h4 h5 h6 h7]
    simp [bailPath, trace9, trace8, trace7, trace6, trace5, trace4, trace3,
      trace2, trace1, trace0, apply_ite]
    all_goals try (split_ifs <;> simp)
  case pos =>
  by_cases h8 : env.getTaskResultRet = 0
  case neg =>
    rw [main_eq_bail_getResult env h1 h2 h3 h4 h5 h6 h7 h8]
    simp [bailPath, trace10, trace9, trace8, trace7, trace6, trace5, trace4,
      trace3, trace2, trace1, trace0, apply_ite]
    all_goals try (split_ifs <;> simp)
  case pos =>
    rw [main_eq_success env h1 h2 h3 h4 h5 h6 h7 h8]
    simp [successTail, trace10, trace9, trace8, trace7, trace6, trace5,
      trace4, trace3, trace2, trace1, trace0, apply_ite]
    all_goals try (split_ifs <;> simp)

lemma create_event_mem (env : Env) (h1 : env.loginAdminRet = 0)
    (h2 : env.loginUserRet = 0) (h3 : env.connectOk = true)
    (h4 : env.setCredentialRet = 0) (h5 : env.registerFunctionRet = 0) :
    Event.teaclave_create_task_serialized (createTaskRequestSent env)
        env.registerFunctionRespLen env.createTaskRet ∈ (main env).trace ∧
    Event.memset_serialized_response BUFFER_SIZE ∈ (main env).trace ∧
    Event.teaclave_register_function_serialized
        register_function_request_serialized BUFFER_SIZE
        env.registerFunctionRet ∈ (main env).trace := by
  by_cases h6 : env.createTaskRet = 0
  case neg =>
    rw [main_eq_bail_createTask env h1 h2 h3 h4 h5 h6]
    refine ⟨?_, ?_, ?_⟩ <;>
      simp [bailPath, trace7, trace6, trace5, trace4, trace3, trace2, trace1,
        trace0, apply_ite] <;>
      all_goals try (split_ifs <;> simp)
  case pos =>
  by_cases h7 : env.invokeTaskRet = 0
  case neg =>
    rw [main_eq_bail_invoke env h1 h2 h3 h4 h5 h6 h7]
    refine ⟨?_, ?_, ?_⟩ <;>
      simp [bailPath, trace9, trace8, trace7, trace6, trace5, trace4, trace3,
        trace2, trace1, trace0, apply_ite] <;>
      all_goals try (split_ifs <;> simp)
  case pos =>
  by_cases h8 : env.getTaskResultRet = 0
  case neg =>
    rw [main_eq_bail_getResult env h1 h2 h3 h4 h5 h6 h7 h8]
    refine ⟨?_, ?_, ?_⟩ <;>
      simp [bailPath, trace10, trace9, trace8, trace7, trace6, trace5,
        trace4, trace3, trace2, trace1, trace0, apply_ite] <;>
      all_goals try (split_ifs <;> simp)
  case pos =>
    rw [main_eq_success env h1 h2 h3 h4 h5 h6 h7 h8]
    refine ⟨?_, ?_, ?_⟩ <;>
      simp [successTail, trace10, trace9, trace8, trace7, trace6, trace5,
        trace4, trace3, trace2, trace1, trace0, apply_ite] <;>
      all_goals try (split_ifs <;> simp)

/-! ### The capacities declared to the serialized calls -/

/-- The in/out capacity an event passes to `teaclave_create_task_serialized`,
if it is such a call. -/
def createCapOf : Event → Option Nat
  | .teaclave_create_task_serialized _ cap _ => some cap
  | _ => none

/-- The capacities `main` declares to `teaclave_create_task_serialized`, in
order. -/
def createCapacities (t : List Event) : List Nat := t.filterMap createCapOf

/-- The in/out capacity an event passes to
`teaclave_register_function_serialized`, if it is such a call. -/
def registerCapOf : Event → Option Nat
  | .teaclave_register_function_serialized _ cap _ => some cap
  | _ => none

/-- The capacities `main` declares to
`teaclave_register_function_serialized`, in order. -/
def registerCapacities (t : List Event) : List Nat := t.filterMap registerCapOf

lemma capacities_char (env : Env) (h1 : env.loginAdminRet = 0)
    (h2 : env.loginUserRet = 0) (h3 : env.connectOk = true)
    (h4 : env.setCredentialRet = 0) (h5 : env.registerFunctionRet = 0) :
    createCapacities (main env).trace = [env.registerFunctionRespLen] ∧
    registerCapacities (main env).trace = [BUFFER_SIZE] := by
  by_cases h6 : env.createTaskRet = 0
  case neg =>
    rw [main_eq_bail_createTask env h1 h2 h3 h4 h5 h6]
    constructor <;> by_cases hr : env.userRegisterRet = 0 <;>
      simp [hr, createCapacities, createCapOf, registerCapacities, registerCapOf,
        bailPath, trace7, trace6, trace5, trace4, trace3, trace2, trace1,
        trace0, apply_ite]
  case pos =>
  by_cases h7 : env.invokeTaskRet = 0
  case neg =>
    rw [main_eq_bail_invoke env h1 h2 h3 h4 h5 h6 h7]
    constructor <;> by_cases hr : env.userRegisterRet = 0 <;>
      simp [hr, createCapacities, createCapOf, registerCapacities, registerCapOf,
        bailPath, trace9, trace8, trace7, trace6, trace5, trace4, trace3,
        trace2, trace1, trace0, apply_ite]
  case pos =>
  by_cases h8 : env.getTaskResultRet = 0
  case neg =>
    rw [main_eq_bail_getResult env h1 h2 h3 h4 h5 h6 h7 h8]
    constructor <;> by_cases hr : env.userRegisterRet = 0 <;>
      simp [hr, createCapacities, createCapOf, registerCapacities, registerCapOf,
        bailPath, trace10, trace9, trace8, trace7, trace6, trace5, trace4,
        trace3, trace2, trace1, trace0, apply_ite]
  case pos =>
    rw [main_eq_success env h1 h2 h3 h4 h5 h6 h7 h8]
    constructor <;> by_cases hr : env.userRegisterRet = 0 <;>
      simp [hr, createCapacities, createCapOf, registerCapacities, registerCapOf,
        successTail, trace10, trace9, trace8, trace7, trace6, trace5, trace4,
        trace3, trace2, trace1, trace0, apply_ite]

/-! ### The echo function and the request payloads, for the round trip -/

/-- One entry of a function's `argument_spec`, as in the `arguments` field of
the register request. -/
structure ArgumentSpecEntry where
  key : String
  default_value : String
  allow_overwrite : Bool
deriving DecidableEq, Repr

/-- The `arguments` entry of `register_function_request_serialized` in the
source: `[{"key": "message", "default_value": "", "allow_overwrite": true}]`. -/
def register_function_argument_spec : List ArgumentSpecEntry :=
  [{ key := "message", default_value := "", allow_overwrite := true }]

/-- The `function_arguments` mapping of `create_task_request_serialized` in
the source: `{"message": "Hello, Teaclave!"}`. -/
def create_task_function_arguments : List (String × String) :=
  [("message", "Hello, Teaclave!")]

/-- Modelled from the spec: how the platform resolves an argument of a task
against the registered function's argument_spec — the executor is not under
`src/`.  The task's `function_arguments` value wins; an absent key falls back
to the spec entry's `default_value`. -/
def argumentValue (spec : List ArgumentSpecEntry)
    (args : List (String × String)) (key : String) : String :=
  match args.find? (fun kv => kv.1 = key) with
  | some kv => kv.2
  | none =>
    match spec.find? (fun e => e.key = key) with
    | some e => e.default_value
    | none => ""

/-- Modelled from the spec: the platform's builtin-echo executor is not under
`src/`; per the spec it is "an identity/echo function", so its result payload
is the value bound to the `"message"` argument. -/
def echoTaskResult (spec : List ArgumentSpecEntry)
    (args : List (String × String)) : String :=
  argumentValue spec args "message"

/-! ### More membership facts over the call sequence -/

lemma sc_mem_callsFromConnect (env : Env) :
    Call.set_credential ∈ callsFromConnect env ↔ env.connectOk = true := by
  by_cases h : env.connectOk = true <;>
    simp [callsFromConnect, callsFromSetCredential, h]

lemma sc_mem_callsFromLoginUser (env : Env) :
    Call.set_credential ∈ callsFromLoginUser env ↔
      env.loginUserRet = 0 ∧ env.connectOk = true := by
  by_cases h : env.loginUserRet = 0 <;>
    simp [callsFromLoginUser, sc_mem_callsFromConnect, h]

lemma sc_mem_mainCalls (env : Env) :
    Call.set_credential ∈ mainCalls env ↔
      env.loginAdminRet = 0 ∧ env.loginUserRet = 0 ∧ env.connectOk = true := by
  by_cases h : env.loginAdminRet = 0 <;>
    simp [mainCalls, sc_mem_callsFromLoginUser, h]

lemma register_mem_callsFromSetCredential (env : Env) :
    Call.register_function ∈ callsFromSetCredential env ↔
      env.setCredentialRet = 0 := by
  by_cases h : env.setCredentialRet = 0 <;>
    simp [callsFromSetCredential, callsFromRegisterFunction, h]

lemma register_mem_callsFromConnect (env : Env) :
    Call.register_function ∈ callsFromConnect env ↔
      env.connectOk = true ∧ env.setCredentialRet = 0 := by
  by_cases h : env.connectOk = true <;>
    simp [callsFromConnect, register_mem_callsFromSetCredential, h]

lemma register_mem_callsFromLoginUser (env : Env) :
    Call.register_function ∈ callsFromLoginUser env ↔
      env.loginUserRet = 0 ∧ env.connectOk = true ∧
        env.setCredentialRet = 0 := by
  by_cases h : env.loginUserRet = 0 <;>
    simp [callsFromLoginUser, register_mem_callsFromConnect, h]

lemma register_mem_mainCalls (env : Env) :
    Call.register_function ∈ mainCalls env ↔ credentialedOk env := by
  by_cases h : env.loginAdminRet = 0 <;>
    simp [mainCalls, register_mem_callsFromLoginUser, h, credentialedOk,
      loginsOk, and_assoc]

lemma create_mem_callsFromRegisterFunction (env : Env) :
    Call.create_task ∈ callsFromRegisterFunction env ↔
      env.registerFunctionRet = 0 := by
  by_cases h : env.registerFunctionRet = 0 <;>
    simp [callsFromRegisterFunction, callsFromCreate, h]

lemma create_mem_callsFromSetCredential (env : Env) :
    Call.create_task ∈ callsFromSetCredential env ↔
      env.setCredentialRet = 0 ∧ env.registerFunctionRet = 0 := by
  by_cases h : env.setCredentialRet = 0 <;>
    simp [callsFromSetCredential, create_mem_callsFromRegisterFunction, h]

lemma create_mem_callsFromConnect (env : Env) :
    Call.create_task ∈ callsFromConnect env ↔
      env.connectOk = true ∧ env.setCredentialRet = 0 ∧
        env.registerFunctionRet = 0 := by
  by_cases h : env.connectOk = true <;>
    simp [callsFromConnect, create_mem_callsFromSetCredential, h]

lemma create_mem_callsFromLoginUser (env : Env) :
    Call.create_task ∈ callsFromLoginUser env ↔
      env.loginUserRet = 0 ∧ env.connectOk = true ∧
        env.setCredentialRet = 0 ∧ env.registerFunctionRet = 0 := by
  by_cases h : env.loginUserRet = 0 <;>
    simp [callsFromLoginUser, create_mem_callsFromConnect, h]

lemma create_mem_mainCalls (env : Env) :
    Call.create_task ∈ mainCalls env ↔ okThroughRegister env := by
  by_cases h : env.loginAdminRet = 0 <;>
    simp [mainCalls, create_mem_callsFromLoginUser, h, okThroughRegister,
      credentialedOk, loginsOk, and_assoc]

/-! ### Length and character-class facts of the scanned identifiers -/

lemma scanStringField_length (tag : String) (width : Nat) (resp : String) :
    (scanStringField tag width resp "").length ≤ width := by
  rw [scanStringField]
  split_ifs
  · exact Nat.zero_le _
  · simpa [String.length] using scanField_length tag.data width resp.data
  · exact Nat.zero_le _

lemma scanStringField_nonspace (tag : String) (width : Nat) (resp : String) :
    ∀ c ∈ (scanStringField tag width resp "").data, isSpaceChar c = false := by
  rw [scanStringField]
  split_ifs <;> intro c hc
  · simp at hc
  · exact scanField_nonspace tag.data width resp.data c hc
  · simp at hc

/-! ### Concrete environments for the witnesses -/

/-- A fully successful run: every call returns 0, the connect succeeds, the
responses carry well-formed identifier fields, the register call reports a
response length of 100, and the task result is the echoed message. -/
def envHappy : Env :=
  { loginAdminRet := 0, userRegisterRet := 0, loginUserRet := 0,
    connectOk := true, setCredentialRet := 0, registerFunctionRet := 0,
    registerFunctionResp := "\x7b\"function_id\":\"fid-0001\"\x7d",
    registerFunctionRespLen := 100, createTaskRet := 0,
    createTaskResp := "\x7b\"task_id\":\"tid-0001\"\x7d",
    invokeTaskRet := 0, getTaskResultRet := 0,
    taskResult := "Hello, Teaclave!", closeValidRet := 0, closeUninitRet := 0 }

/-- A run whose very first call, the admin `login`, fails. -/
def envAdminLoginFails : Env :=
  { envHappy with loginAdminRet := 1 }

/-- A run where function registration fails and the close over the bail path
fails too. -/
def envRegisterFunctionFails : Env :=
  { envHappy with registerFunctionRet := 5, closeValidRet := 1 }

/-- A run where `user_register` fails but everything else succeeds. -/
def envUserRegisterFails : Env :=
  { envHappy with userRegisterRet := 1 }

/-- A run where `teaclave_connect_frontend_service` returns `NULL`. -/
def envConnectFails : Env :=
  { envHappy with connectOk := false }

/-- A successful run whose serialized responses do not carry the expected
identifier fields. -/
def envBadResponses : Env :=
  { envHappy with
    registerFunctionResp := "HTTP 500 oops",
    createTaskResp := "" }

/-! ### The claims -/

/-- C1: the client drives each task through the lifecycle order
create -> invoke -> result: `teaclave_invoke_task` is performed exactly when
everything through `teaclave_create_task_serialized` succeeded (and with the
task id scanned from the create response), `teaclave_get_task_result` exactly
when the invoke also succeeded; the create call precedes the invoke and the
invoke precedes the result fetch in the call sequence; no lifecycle call is
performed twice (no retry), and on any non-zero return the run exits through
the cleanup path with status -1. -/
theorem C1_task_lifecycle_order (env : Env) :
    (Call.invoke_task ∈ callSeq (main env).trace ↔ okThroughCreate env) ∧
    (Call.get_task_result ∈ callSeq (main env).trace ↔ okThroughInvoke env) ∧
    (okThroughCreate env →
      Event.teaclave_invoke_task (scannedTaskId env) env.invokeTaskRet ∈
        (main env).trace ∧
      List.Sublist [Call.create_task, Call.invoke_task]
        (callSeq (main env).trace)) ∧
    (okThroughInvoke env →
      List.Sublist [Call.invoke_task, Call.get_task_result]
        (callSeq (main env).trace)) ∧
    (callSeq (main env).trace).count Call.create_task ≤ 1 ∧
    (callSeq (main env).trace).count Call.invoke_task ≤ 1 ∧
    (callSeq (main env).trace).count Call.get_task_result ≤ 1 ∧
    (bailTaken env → (main env).exitCode = -1) := by
  rw [callSeq_main]
  obtain ⟨c1, c2, c3⟩ := counts_mainCalls env
  refine ⟨invoke_mem_mainCalls env, get_mem_mainCalls env, ?_, ?_, c1, c2, c3,
    ?_⟩
  · intro h
    exact ⟨invoke_event_mem env h.1.1.1.1 h.1.1.1.2 h.1.1.2.1 h.1.1.2.2 h.1.2
      h.2, create_before_invoke_sublist env h⟩
  · intro h
    exact invoke_before_get_sublist env h
  · intro hb
    rw [main_exitCode, if_neg hb]

theorem C1_task_lifecycle_order_witness :
    okThroughCreate envHappy ∧
    Call.invoke_task ∈ callSeq (main envHappy).trace ∧
    List.Sublist [Call.create_task, Call.invoke_task]
      (callSeq (main envHappy).trace) := by
  have h := C1_task_lifecycle_order envHappy
  have hok : okThroughCreate envHappy := by decide
  exact ⟨hok, h.1.mpr hok, (h.2.2.1 hok).2⟩

/-- C2: evidence for the code bug behind the claim "close is invoked on every
exit path ... on a valid (initialized) connection handle": when the admin
login fails, `goto bail` jumps over the initialization of `frontend_client`,
and the single close call of the run is performed on the uninitialized
pointer, not on a valid handle. -/
theorem C2_close_on_uninitialized_handle :
    closeCalls (main envAdminLoginFails).trace =
      [(HandleState.uninit, envAdminLoginFails.closeUninitRet)] ∧
    closeHandle envAdminLoginFails = HandleState.uninit ∧
    HandleState.uninit ≠ HandleState.valid := by
  refine ⟨?_, by decide, by decide⟩
  rw [closeCalls_main]
  decide

/-- C3: on any unrecoverable failure the run exits with the non-zero status
-1 (independent of the close outcome), after performing exactly one close of
the Session Connection; the failure's diagnostic is emitted on stderr (and is
not the close-failure message), and a failure of the close itself is also
reported on stderr without changing the exit status. -/
theorem C3_fatal_error_cleanup (env : Env) (hb : bailTaken env) :
    (main env).exitCode = -1 ∧ (main env).exitCode ≠ 0 ∧
    closeCalls (main env).trace =
      [(closeHandle env, closeRet env (closeHandle env))] ∧
    (∃ m, m ∈ stderrMsgs (main env).trace ∧ m ≠ Msg.failedClose) ∧
    (closeRet env (closeHandle env) ≠ 0 →
      Msg.failedClose ∈ stderrMsgs (main env).trace) := by
  have he : (main env).exitCode = -1 := by rw [main_exitCode, if_neg hb]
  exact ⟨he, by rw [he]; decide, closeCalls_main env, bail_diag env hb,
    close_failure_reported env⟩

theorem C3_fatal_error_cleanup_witness :
    bailTaken envRegisterFunctionFails ∧
    ((main envRegisterFunctionFails).exitCode = -1 ∧
     (main envRegisterFunctionFails).exitCode ≠ 0 ∧
     closeCalls (main envRegisterFunctionFails).trace =
       [(closeHandle envRegisterFunctionFails,
         closeRet envRegisterFunctionFails
           (closeHandle envRegisterFunctionFails))] ∧
     (∃ m, m ∈ stderrMsgs (main envRegisterFunctionFails).trace ∧
        m ≠ Msg.failedClose) ∧
     (closeRet envRegisterFunctionFails
         (closeHandle envRegisterFunctionFails) ≠ 0 →
       Msg.failedClose ∈ stderrMsgs (main envRegisterFunctionFails).trace)) :=
  ⟨by decide, C3_fatal_error_cleanup envRegisterFunctionFails (by decide)⟩

/-- C4: a failing `user_register` is non-fatal: its diagnostic goes to stderr
and the run still performs the user's login; when every other call succeeds
the run still reaches the end (exit status = the close call's return, the
result fetch happens).  Every one of the other calls is fatal: any of them
failing sends the run to the bail path with exit status -1. -/
theorem C4_user_register_failure_nonfatal (env : Env) :
    (env.loginAdminRet = 0 ∧ env.userRegisterRet ≠ 0 →
      Msg.failedRegister ∈ stderrMsgs (main env).trace ∧
      Event.login user_id BUFFER_SIZE env.loginUserRet ∈ (main env).trace ∧
      (allCallsOk env → (main env).exitCode = env.closeValidRet ∧
        Call.get_task_result ∈ callSeq (main env).trace)) ∧
    (bailTaken env → (main env).exitCode = -1) := by
  constructor
  · rintro ⟨h1, h⟩
    obtain ⟨hm, hl⟩ := register_failure_nonfatal_aux env h1 h
    refine ⟨hm, hl, fun hok => ⟨?_, ?_⟩⟩
    · rw [main_exitCode, if_pos hok]
    · rw [callSeq_main]
      exact (get_mem_mainCalls env).mpr hok.1
  · intro hb
    rw [main_exitCode, if_neg hb]

theorem C4_user_register_failure_nonfatal_witness :
    (envUserRegisterFails.loginAdminRet = 0 ∧
      envUserRegisterFails.userRegisterRet ≠ 0) ∧
    Msg.failedRegister ∈ stderrMsgs (main envUserRegisterFails).trace ∧
    allCallsOk envUserRegisterFails ∧
    (main envUserRegisterFails).exitCode =
      envUserRegisterFails.closeValidRet := by
  have h := (C4_user_register_failure_nonfatal envUserRegisterFails).1
    (by decide)
  exact ⟨by decide, h.1, by decide, (h.2.2 (by decide)).1⟩

/-- C5: when the connect returns `NULL`, the close over the bail path is
performed on the null handle and (modelled from the spec) reports failure
rather than crashing: the run still emits the close-failure diagnostic and
terminates normally through `exit(-1)`. -/
theorem C5_close_of_failed_connect (env : Env) (h1 : env.loginAdminRet = 0)
    (h2 : env.loginUserRet = 0) (h3 : env.connectOk = false) :
    closeCalls (main env).trace = [(HandleState.null, 1)] ∧
    Msg.failedClose ∈ stderrMsgs (main env).trace ∧
    (main env).exitCode = -1 := by
  have hh : closeHandle env = HandleState.null := by
    simp [closeHandle, h1, h2, h3]
  refine ⟨?_, ?_, ?_⟩
  · have hc := closeCalls_main env
    rw [hh] at hc
    simpa [closeRet] using hc
  · apply close_failure_reported
    rw [hh]
    simp [closeRet]
  · rw [main_exitCode, if_neg (by simp [allCallsOk, okThroughInvoke,
      okThroughCreate, okThroughRegister, credentialedOk, h3])]

theorem C5_close_of_failed_connect_witness :
    (envConnectFails.loginAdminRet = 0 ∧ envConnectFails.loginUserRet = 0 ∧
      envConnectFails.connectOk = false) ∧
    (closeCalls (main envConnectFails).trace = [(HandleState.null, 1)] ∧
     Msg.failedClose ∈ stderrMsgs (main envConnectFails).trace ∧
     (main envConnectFails).exitCode = -1) :=
  ⟨by decide, C5_close_of_failed_connect envConnectFails (by decide)
    (by decide) (by decide)⟩

/-- C6: no privileged function/task operation happens on the connection
without a credential: every call before the `teaclave_frontend_set_credential`
call is unprivileged, and if any privileged call occurs at all then the
credential call occurred and returned success. -/
theorem C6_credential_before_privileged (env : Env) :
    (∀ c ∈ (callSeq (main env).trace).takeWhile
        (fun c => !(c == Call.set_credential)), privilegedCall c = false) ∧
    ((∃ c ∈ callSeq (main env).trace, privilegedCall c = true) →
      env.setCredentialRet = 0 ∧
      Event.teaclave_frontend_set_credential user_id env.setCredentialRet ∈
        (main env).trace ∧
      Call.set_credential ∈ callSeq (main env).trace) := by
  rw [callSeq_main]
  constructor
  · exact no_privileged_before_credential env
  · rintro ⟨c, hc, hp⟩
    have hcred : credentialedOk env := by
      cases c <;> simp [privilegedCall] at hp
      · exact (register_mem_mainCalls env).mp hc
      · exact ((create_mem_mainCalls env).mp hc).1
      · exact ((invoke_mem_mainCalls env).mp hc).1.1
      · exact ((get_mem_mainCalls env).mp hc).1.1.1
    refine ⟨hcred.2.2, ?_, ?_⟩
    · exact setCredential_event_mem env hcred.1.1 hcred.1.2 hcred.2.1
        hcred.2.2
    · exact (sc_mem_mainCalls env).mpr ⟨hcred.1.1, hcred.1.2, hcred.2.1⟩

theorem C6_credential_before_privileged_witness :
    (∃ c ∈ callSeq (main envHappy).trace, privilegedCall c = true) ∧
    envHappy.setCredentialRet = 0 ∧
    Event.teaclave_frontend_set_credential user_id
      envHappy.setCredentialRet ∈ (main envHappy).trace ∧
    Call.set_credential ∈ callSeq (main envHappy).trace := by
  have hex : ∃ c ∈ callSeq (main envHappy).trace, privilegedCall c = true := by
    refine ⟨Call.invoke_task, ?_, by decide⟩
    rw [callSeq_main]
    exact (invoke_mem_mainCalls envHappy).mpr (by decide)
  exact ⟨hex, (C6_credential_before_privileged envHappy).2 hex⟩

/-- C7: identifier parsing is bounded and prefix-based.  The scanned
`function_id` (resp. `task_id`) holds at most 45 (resp. 41) non-whitespace
characters; with the terminating NUL it fits the `BUFFER_SIZE` destination
buffer.  The scan requires the exact field prefix at the start of the
response; when the prefix matches, the stored identifier is the run of at
most 45 (resp. 41) non-whitespace characters read after the prefix (after
`%s`'s whitespace skip), and its characters come from the response text
following the prefix. -/
theorem C7_bounded_identifier_parsing (env : Env) :
    (scannedFunctionId env).length ≤ 45 ∧
    (scannedTaskId env).length ≤ 41 ∧
    (scannedFunctionId env).length + 1 ≤ BUFFER_SIZE ∧
    (scannedTaskId env).length + 1 ≤ BUFFER_SIZE ∧
    (∀ c ∈ (scannedFunctionId env).data, isSpaceChar c = false) ∧
    (∀ c ∈ (scannedTaskId env).data, isSpaceChar c = false) ∧
    (functionIdTag.data.isPrefixOf env.registerFunctionResp.data = false →
      scannedFunctionId env = "") ∧
    (functionIdTag.data.isPrefixOf env.registerFunctionResp.data = true →
      (scannedFunctionId env).data =
        scanField functionIdTag.data 45 env.registerFunctionResp.data ∧
      (scannedFunctionId env).data <:+:
        env.registerFunctionResp.data.drop functionIdTag.data.length) ∧
    (taskIdTag.data.isPrefixOf env.createTaskResp.data = false →
      scannedTaskId env = "") ∧
    (taskIdTag.data.isPrefixOf env.createTaskResp.data = true →
      (scannedTaskId env).data =
        scanField taskIdTag.data 41 env.createTaskResp.data ∧
      (scannedTaskId env).data <:+:
        env.createTaskResp.data.drop taskIdTag.data.length) := by
  have hf : (scannedFunctionId env).length ≤ 45 :=
    scanStringField_length functionIdTag 45 env.registerFunctionResp
  have ht : (scannedTaskId env).length ≤ 41 :=
    scanStringField_length taskIdTag 41 env.createTaskResp
  refine ⟨hf, ht, by unfold BUFFER_SIZE; omega, by unfold BUFFER_SIZE; omega,
    scanStringField_nonspace functionIdTag 45 env.registerFunctionResp,
    scanStringField_nonspace taskIdTag 41 env.createTaskResp,
    fun h => scanStringField_of_no_tag _ _ _ _ h, fun h => ?_,
    fun h => scanStringField_of_no_tag _ _ _ _ h, fun h => ?_⟩
  · have he := scanStringField_data_of_tag functionIdTag 45
      env.registerFunctionResp h
    exact ⟨he, he ▸ scanField_infix functionIdTag.data 45
      env.registerFunctionResp.data⟩
  · have he := scanStringField_data_of_tag taskIdTag 41 env.createTaskResp h
    exact ⟨he, he ▸ scanField_infix taskIdTag.data 41 env.createTaskResp.data⟩

theorem C7_bounded_identifier_parsing_witness :
    functionIdTag.data.isPrefixOf envHappy.registerFunctionResp.data = true ∧
    (scannedFunctionId envHappy).data =
      scanField functionIdTag.data 45 envHappy.registerFunctionResp.data ∧
    (scannedFunctionId envHappy).length ≤ 45 := by
  have h := C7_bounded_identifier_parsing envHappy
  exact ⟨by decide, (h.2.2.2.2.2.2.2.1 (by decide)).1, h.1⟩

/-- C8: echo round trip.  With the source's argument_spec (key "message",
default "", allow_overwrite true) and the source's function_arguments
("message" -> "Hello, Teaclave!"), a platform whose registered function is
the echo (identity) executor — modelled from the spec — produces a task
result containing "Hello, Teaclave!", and a fully successful run prints that
result. -/
theorem C8_echo_round_trip (env : Env) (hok : allCallsOk env)
    (hecho : env.taskResult =
      echoTaskResult register_function_argument_spec
        create_task_function_arguments) :
    Event.stdout (Msg.taskResultShown env.taskResult) ∈ (main env).trace ∧
    ∃ pre post, env.taskResult = pre ++ "Hello, Teaclave!" ++ post := by
  obtain ⟨⟨⟨⟨⟨⟨h1, h2⟩, h3, h4⟩, h5⟩, h6⟩, h7⟩, h8⟩ := hok
  constructor
  · rw [main_eq_success env h1 h2 h3 h4 h5 h6 h7 h8]
    simp [successTail, trace10, trace9, trace8, trace7, trace6, trace5,
      trace4, trace3, trace2, trace1, trace0, apply_ite]
    all_goals try (split_ifs <;> simp)
  · exact ⟨"", "", by rw [hecho]; decide⟩

theorem C8_echo_round_trip_witness :
    allCallsOk envHappy ∧
    envHappy.taskResult =
      echoTaskResult register_function_argument_spec
        create_task_function_arguments ∧
    (∃ pre post, envHappy.taskResult = pre ++ "Hello, Teaclave!" ++ post) :=
  ⟨by decide, by decide,
    (C8_echo_round_trip envHappy (by decide) (by decide)).2⟩

/-- C9: the response-capacity parameter is not re-initialized between the
serialized calls: in any run that reaches task creation, the single
`teaclave_create_task_serialized` call declares as capacity exactly the
length value the register call output (`registerFunctionRespLen`), not
`BUFFER_SIZE`, while the register call itself declared `BUFFER_SIZE`; the
response buffer is zeroed (`memset`) in between. -/
theorem C9_response_capacity_not_reset (env : Env)
    (h : okThroughRegister env) :
    createCapacities (main env).trace = [env.registerFunctionRespLen] ∧
    registerCapacities (main env).trace = [BUFFER_SIZE] ∧
    Event.memset_serialized_response BUFFER_SIZE ∈ (main env).trace ∧
    Event.teaclave_create_task_serialized (createTaskRequestSent env)
      env.registerFunctionRespLen env.createTaskRet ∈ (main env).trace := by
  obtain ⟨⟨⟨h1, h2⟩, h3, h4⟩, h5⟩ := h
  obtain ⟨hc, hr⟩ := capacities_char env h1 h2 h3 h4 h5
  obtain ⟨he1, he2, _⟩ := create_event_mem env h1 h2 h3 h4 h5
  exact ⟨hc, hr, he2, he1⟩

theorem C9_response_capacity_not_reset_witness :
    okThroughRegister envHappy ∧
    createCapacities (main envHappy).trace =
      [envHappy.registerFunctionRespLen] ∧
    envHappy.registerFunctionRespLen ≠ BUFFER_SIZE ∧
    registerCapacities (main envHappy).trace = [BUFFER_SIZE] := by
  have h := C9_response_capacity_not_reset envHappy (by decide)
  exact ⟨by decide, h.1, by decide, h.2.1⟩

/-- C10: identifier-parse failure is silent.  In a run where every call
succeeds but a serialized response does not begin with the expected field
prefix, the identifier buffer keeps its initial empty value, the client still
builds the create-task request (with the empty id) and still invokes the task
(with the empty id), nothing is printed to stderr, and the run ends on the
success path. -/
theorem C10_parse_failure_is_silent (env : Env) (hok : allCallsOk env)
    (hreg : env.userRegisterRet = 0) (hclose : env.closeValidRet = 0) :
    (functionIdTag.data.isPrefixOf env.registerFunctionResp.data = false →
      scannedFunctionId env = "" ∧
      Event.teaclave_create_task_serialized
        ((create_task_request_with "").take (BUFFER_SIZE - 1))
        env.registerFunctionRespLen env.createTaskRet ∈ (main env).trace) ∧
    (taskIdTag.data.isPrefixOf env.createTaskResp.data = false →
      scannedTaskId env = "" ∧
      Event.teaclave_invoke_task "" env.invokeTaskRet ∈ (main env).trace) ∧
    stderrMsgs (main env).trace = [] ∧
    (main env).exitCode = env.closeValidRet := by
  obtain ⟨⟨⟨⟨⟨⟨h1, h2⟩, h3, h4⟩, h5⟩, h6⟩, h7⟩, h8⟩ := hok
  refine ⟨?_, ?_,
    stderrMsgs_success_empty env h1 h2 h3 h4 h5 h6 h7 h8 hreg hclose,
    by rw [main_exitCode,
      if_pos (⟨⟨⟨⟨⟨⟨h1, h2⟩, h3, h4⟩, h5⟩, h6⟩, h7⟩, h8⟩ : allCallsOk env)]⟩
  · intro hp
    have hs : scannedFunctionId env = "" :=
      scanStringField_of_no_tag _ _ _ _ hp
    refine ⟨hs, ?_⟩
    have hm := (create_event_mem env h1 h2 h3 h4 h5).1
    rw [createTaskRequestSent, hs] at hm
    exact hm
  · intro hp
    have hs : scannedTaskId env = "" := scanStringField_of_no_tag _ _ _ _ hp
    have hm := invoke_event_mem env h1 h2 h3 h4 h5 h6
    rw [hs] at hm
    exact ⟨hs, hm⟩

theorem C10_parse_failure_is_silent_witness :
    allCallsOk envBadResponses ∧
    functionIdTag.data.isPrefixOf
      envBadResponses.registerFunctionResp.data = false ∧
    taskIdTag.data.isPrefixOf envBadResponses.createTaskResp.data = false ∧
    scannedFunctionId envBadResponses = "" ∧
    scannedTaskId envBadResponses = "" ∧
    stderrMsgs (main envBadResponses).trace = [] ∧
    (main envBadResponses).exitCode = envBadResponses.closeValidRet := by
  have h := C10_parse_failure_is_silent envBadResponses (by decide)
    (by decide) (by decide)
  exact ⟨by decide, by decide, by decide, (h.1 (by decide)).1,
    (h.2.1 (by decide)).1, h.2.2.1, h.2.2.2⟩

end BuiltinEcho












